/-
Verification development for the watt power-management daemon.

The Rust sources are shallowly embedded in Lean 4:

- f64 values are modelled as rationals; the transcendental parts of f64
  (powf, log2) are modelled as parameters or as real-valued functions.
- std::time::Instant is modelled as a natural number of milliseconds;
  Instant subtraction saturates to zero, exactly like
  Instant::duration_since in current Rust.
- The sysfs tree is modelled as a finite map from path strings to file
  contents, together with a set of existing directory paths and a set of
  paths on which writes fail. fs::read distinguishes not-found (None)
  from other errors; in the model reads fail only with not-found, which
  is the only read failure the claims exercise.
- anyhow::Result is Except String; error message strings are abbreviated
  but attached at the same places as in the source.
- Rust strings are Lean Strings; the primitive operations used by the
  source (trim, to_lowercase, contains, starts_with, parse) are
  implemented over the character list so that they compute.
- HashMap / HashSet iteration is modelled as iteration over a list; the
  Rust iteration order is arbitrary, the list order is one such order.
-/
import Mathlib

set_option maxRecDepth 40000

/-! ## String helpers (models of the Rust str primitives used by the source) -/

/-- Model of str::starts_with on character lists. -/
def charsLeadWith : List Char → List Char → Bool
  | [], _ => true
  | _ :: _, [] => false
  | p :: ps, c :: cs => p == c && charsLeadWith ps cs

/-- Model of str::contains on character lists. -/
def charsContain (pat : List Char) : List Char → Bool
  | [] => charsLeadWith pat []
  | c :: cs => charsLeadWith pat (c :: cs) || charsContain pat cs

/-- Model of str::contains. -/
def strContainsSub (s pat : String) : Bool :=
  charsContain pat.data s.data

/-- Model of str::starts_with. -/
def strStartsWith (s pat : String) : Bool :=
  charsLeadWith pat.data s.data

/-- Model of str::to_lowercase. -/
def strToLower (s : String) : String :=
  String.mk (s.data.map Char.toLower)

def isWhitespaceChar (c : Char) : Bool :=
  c == ' ' || c == '\t' || c == '\n' || c == '\r'

/-- Model of str::trim. -/
def strTrim (s : String) : String :=
  String.mk (((s.data.dropWhile isWhitespaceChar).reverse.dropWhile
    isWhitespaceChar).reverse)

/-- Model of str::split_whitespace, collecting the non-empty chunks. The
first argument accumulates the current word in reverse. -/
def splitWhitespaceAux : List Char → List Char → List String
  | acc, [] => if acc.isEmpty then [] else [String.mk acc.reverse]
  | acc, c :: cs =>
    if isWhitespaceChar c then
      if acc.isEmpty then splitWhitespaceAux [] cs
      else String.mk acc.reverse :: splitWhitespaceAux [] cs
    else splitWhitespaceAux (c :: acc) cs

def splitWhitespace (s : String) : List String :=
  splitWhitespaceAux [] s.data

def isDigitChar (c : Char) : Bool := c.isDigit

/-- Model of str::parse for unsigned integers: all characters must be
decimal digits. Overflow is not modelled; the source only parses small
sysfs numbers. -/
def parseNatChars : List Char → Option Nat
  | [] => none
  | cs =>
    if cs.all isDigitChar then
      some (cs.foldl (fun a c => a * 10 + (c.toNat - 48)) 0)
    else none

def strParseNat (s : String) : Option Nat :=
  parseNatChars s.data

/-- Model of str::parse for signed integers. -/
def strParseInt (s : String) : Option Int :=
  match s.data with
  | '-' :: rest => (parseNatChars rest).map (fun n => -(n : Int))
  | cs => (parseNatChars cs).map (fun n => (n : Int))

/-! ## f64 cast helpers -/

/-- Model of f64::round: round half away from zero. -/
def f64Round (q : ℚ) : ℤ :=
  if 0 ≤ q then ⌊q + 1 / 2⌋ else ⌈q - 1 / 2⌉

/-- Model of an `as u8` cast on an f64: truncate toward zero and saturate
into 0..=255. -/
def f64AsU8 (q : ℚ) : ℕ :=
  min 255 (Int.toNat ⌊q⌋)

/-- Model of an `as u32` / `as u64` cast on a non-negative f64: truncate
toward zero, negative values saturate to 0. The upper saturation bound is
never reached by the source, so it is left out. -/
def f64AsNat (q : ℚ) : ℕ :=
  Int.toNat ⌊q⌋

/-! ## src/watt/fs.rs: the sysfs adapter over an in-memory tree -/

/-- The sysfs tree: file contents by path, existing directory paths, and
paths on which fs::write fails with an I/O error. -/
structure Fs where
  files : List (String × String)
  dirs : List String
  writeFails : List String
  deriving DecidableEq

/-- Raw file lookup; first binding wins, as later writes are prepended. -/
def Fs.lookupFile (fs : Fs) (path : String) : Option String :=
  (fs.files.find? (fun kv => kv.fst == path)).map (fun kv => kv.snd)

/-- fs::exists. -/
def Fs.existsPath (fs : Fs) (path : String) : Bool :=
  (fs.lookupFile path).isSome || fs.dirs.contains path

/-- fs::read: trimmed contents, None when the file does not exist. -/
def Fs.read (fs : Fs) (path : String) : Option String :=
  (fs.lookupFile path).map strTrim

/-- fs::read_n for unsigned integers: None when the file does not exist,
an error when the contents do not parse. -/
def Fs.readNat (fs : Fs) (path : String) : Except String (Option ℕ) :=
  match fs.read path with
  | none => .ok none
  | some content =>
    match strParseNat (strTrim content) with
    | some n => .ok (some n)
    | none => .error "failed to parse contents as a unsigned number"

/-- fs::read_n for signed integers. -/
def Fs.readInt (fs : Fs) (path : String) : Except String (Option ℤ) :=
  match fs.read path with
  | none => .ok none
  | some content =>
    match strParseInt (strTrim content) with
    | some n => .ok (some n)
    | none => .error "failed to parse contents as a number"

/-- fs::write: fails on the configured failure paths, otherwise records
the new contents. -/
def Fs.write (fs : Fs) (path : String) (value : String) :
    Except String Fs :=
  if fs.writeFails.contains path then .error "failed to write"
  else .ok { fs with files := (path, value) :: fs.files }

/-- Path::join for the string paths used in the model. -/
def pathJoin (a b : String) : String :=
  a ++ "/" ++ b

/-! ## src/watt/cpu.rs: CpuStat and Cpu -/

/-- Kernel stat counters of one CPU (src/watt/cpu.rs, struct CpuStat). -/
structure CpuStat where
  user : ℕ
  nice : ℕ
  system : ℕ
  idle : ℕ
  iowait : ℕ
  irq : ℕ
  softirq : ℕ
  steal : ℕ
  deriving DecidableEq

def CpuStat.total (s : CpuStat) : ℕ :=
  s.user + s.nice + s.system + s.idle + s.iowait + s.irq + s.softirq + s.steal

def CpuStat.idleCount (s : CpuStat) : ℕ :=
  s.idle + s.iowait

/-- CpuStat::usage. The f64 division is modelled over the rationals; the
total = 0 corner (NaN in f64) is outside the claims. -/
def CpuStat.usage (s : CpuStat) : ℚ :=
  1 - (s.idleCount : ℚ) / (s.total : ℚ)

/-- One CPU (src/watt/cpu.rs, struct Cpu). -/
structure Cpu where
  number : ℕ
  has_cpufreq : Bool
  available_governors : List String
  governor : Option String
  frequency_mhz : Option ℕ
  frequency_mhz_minimum : Option ℕ
  frequency_mhz_maximum : Option ℕ
  available_epps : List String
  epp : Option String
  available_epbs : List String
  epb : Option String
  stat : CpuStat
  info : Option (List (String × String))
  temperature : Option ℚ
  deriving DecidableEq

/-- Modelled from the spec: cpu::Delta, the optional-field patch over a
CPU, is referenced by src/watt/system.rs (run_daemon) and filled by
src/watt/config.rs (CpusDelta::eval) but its definition is not among the
provided sources. Per the spec (section 3, Delta), it has the five
governed fields below, all optional. -/
structure CpuDelta where
  governor : Option String := none
  energy_performance_preference : Option String := none
  energy_perf_bias : Option String := none
  frequency_mhz_minimum : Option ℕ := none
  frequency_mhz_maximum : Option ℕ := none
  deriving DecidableEq

instance : Inhabited CpuDelta := ⟨{}⟩

/-- Modelled from the spec: accumulator-wins merge of two CPU deltas
(spec section 4.4: a field already set is not overwritten). -/
def CpuDelta.or (self other : CpuDelta) : CpuDelta where
  governor := self.governor.or other.governor
  energy_performance_preference :=
    self.energy_performance_preference.or other.energy_performance_preference
  energy_perf_bias := self.energy_perf_bias.or other.energy_perf_bias
  frequency_mhz_minimum :=
    self.frequency_mhz_minimum.or other.frequency_mhz_minimum
  frequency_mhz_maximum :=
    self.frequency_mhz_maximum.or other.frequency_mhz_maximum

/-- Modelled from the spec: a delta is saturated when every governed
field is set (spec section 3, Delta; used as Delta::is_some by the
short-circuit check in run_daemon). -/
def CpuDelta.is_some (d : CpuDelta) : Bool :=
  d.governor.isSome && d.energy_performance_preference.isSome &&
    d.energy_perf_bias.isSome && d.frequency_mhz_minimum.isSome &&
    d.frequency_mhz_maximum.isSome

/-! ## src/watt/power_supply.rs -/

/-- Vendor profile of charge-threshold sysfs paths. -/
structure PowerSupplyThresholdConfig where
  manufacturer : String
  path_start : String
  path_end : String
  deriving DecidableEq

/-- POWER_SUPPLY_THRESHOLD_CONFIGS, in source order. -/
def powerSupplyThresholdConfigs : List PowerSupplyThresholdConfig :=
  [ { manufacturer := "Standard",
      path_start := "charge_control_start_threshold",
      path_end := "charge_control_end_threshold" },
    { manufacturer := "ASUS",
      path_start := "charge_control_start_percentage",
      path_end := "charge_control_end_percentage" },
    { manufacturer := "ThinkPad/Huawei",
      path_start := "charge_start_threshold",
      path_end := "charge_stop_threshold" },
    { manufacturer := "Framework",
      path_start := "charge_behaviour_start_threshold",
      path_end := "charge_behaviour_end_threshold" } ]

/-- One power supply (src/watt/power_supply.rs, struct PowerSupply). -/
structure PowerSupply where
  name : String
  path : String
  type_ : String
  is_from_peripheral : Bool
  charge_state : Option String
  charge_percent : Option ℚ
  charge_threshold_start : ℚ
  charge_threshold_end : ℚ
  drain_rate_watts : Option ℚ
  threshold_config : Option PowerSupplyThresholdConfig
  deriving DecidableEq

/-- PowerSupply::is_ac. -/
def PowerSupply.is_ac (ps : PowerSupply) : Bool :=
  (!ps.is_from_peripheral &&
      ["Mains", "USB_PD_DRP", "USB_PD", "USB_DCP", "USB_CDP", "USB_ACA"
        ].contains ps.type_)
    || strStartsWith ps.type_ "AC"
    || strContainsSub ps.type_ "ACAD"
    || strContainsSub ps.type_ "ADP"

/-- The initial record built by PowerSupply::from_name /
PowerSupply::from_path before the constructor calls rescan. -/
def PowerSupply.fresh (name : String) : PowerSupply where
  name := name
  path := pathJoin "/sys/class/power_supply" name
  type_ := ""
  is_from_peripheral := false
  charge_state := none
  charge_percent := none
  charge_threshold_start := 0
  charge_threshold_end := 1
  drain_rate_watts := none
  threshold_config := none

/-- The peripheral-detection block of PowerSupply::rescan: name
heuristics, then small design capacity, then model-name hints. -/
def PowerSupply.isFromPeripheralOf (ps : PowerSupply) (fs : Fs) :
    Except String Bool := do
  let name_lower := strToLower ps.name
  if strContainsSub name_lower "mouse"
      || strContainsSub name_lower "keyboard"
      || strContainsSub name_lower "trackpad"
      || strContainsSub name_lower "gamepad"
      || strContainsSub name_lower "controller"
      || strContainsSub name_lower "headset"
      || strContainsSub name_lower "headphone" then
    pure true
  else
    match ← fs.readNat (pathJoin ps.path "energy_full") with
    | some energy_full =>
      if energy_full < 10000000 then pure true
      else
        match fs.read (pathJoin ps.path "model_name") with
        | some model_name =>
          let model_name_lower := strToLower model_name
          pure (strContainsSub model_name_lower "bluetooth"
            || strContainsSub model_name_lower "wireless")
        | none => pure false
    | none =>
      match fs.read (pathJoin ps.path "model_name") with
      | some model_name =>
        let model_name_lower := strToLower model_name
        pure (strContainsSub model_name_lower "bluetooth"
          || strContainsSub model_name_lower "wireless")
      | none => pure false

/-- The Battery-typed block of PowerSupply::rescan: charge state,
charge percent, the two charge thresholds (read from the Standard
paths, defaulting to 0 and 100 when absent), drain rate, and the vendor
threshold-path profile. -/
def PowerSupply.rescanBattery (ps : PowerSupply) (fs : Fs) :
    Except String PowerSupply := do
  let charge_state := fs.read (pathJoin ps.path "status")
  let charge_percent :=
    (← fs.readNat (pathJoin ps.path "capacity")).map
      (fun percent => (percent : ℚ) / 100)
  let charge_threshold_start :=
    match ← fs.readNat (pathJoin ps.path "charge_control_start_threshold")
      with
    | some percent => (percent : ℚ) / 100
    | none => 0
  let charge_threshold_end :=
    match ← fs.readNat (pathJoin ps.path "charge_control_end_threshold")
      with
    | some percent => (percent : ℚ) / 100
    | none => 100
  let drain_rate_watts ←
    match ← fs.readInt (pathJoin ps.path "power_now") with
    | some drain => pure (some (drain : ℚ))
    | none => do
      let current_ua ← fs.readInt (pathJoin ps.path "current_now")
      let voltage_uv ← fs.readInt (pathJoin ps.path "voltage_now")
      pure (match current_ua, voltage_uv with
        | some current, some voltage =>
          some ((current : ℚ) * (voltage : ℚ) / 1000000000000)
        | _, _ => none)
  let threshold_config := powerSupplyThresholdConfigs.find?
    (fun config =>
      fs.existsPath (pathJoin ps.path config.path_start)
        && fs.existsPath (pathJoin ps.path config.path_end))
  pure { ps with
    charge_state := charge_state
    charge_percent := charge_percent
    charge_threshold_start := charge_threshold_start
    charge_threshold_end := charge_threshold_end
    drain_rate_watts := drain_rate_watts
    threshold_config := threshold_config }

/-- PowerSupply::rescan. Reads the device type, derives the peripheral
flag, and for Battery-typed devices runs the battery block above; a
non-Battery device keeps its previous battery fields. -/
def PowerSupply.rescan (ps : PowerSupply) (fs : Fs) :
    Except String PowerSupply := do
  if !(fs.existsPath ps.path) then
    throw "power supply does not exist"
  let type_ ←
    match fs.read (pathJoin ps.path "type") with
    | some t => pure t
    | none => throw "type file does not exist"
  let ps := { ps with type_ := type_ }
  let is_from_peripheral ← ps.isFromPeripheralOf fs
  let ps := { ps with is_from_peripheral := is_from_peripheral }
  if ps.type_ == "Battery" then ps.rescanBattery fs
  else pure ps

/-- PowerSupply::charge_threshold_path_start. -/
def PowerSupply.charge_threshold_path_start (ps : PowerSupply) :
    Option String :=
  ps.threshold_config.map (fun config => pathJoin ps.path config.path_start)

/-- PowerSupply::charge_threshold_path_end. -/
def PowerSupply.charge_threshold_path_end (ps : PowerSupply) :
    Option String :=
  ps.threshold_config.map (fun config => pathJoin ps.path config.path_end)

/-- PowerSupply::set_charge_threshold_start. Returns the call result
together with the power-supply record and sysfs tree as left by the
call, mirroring the mutable borrows of the Rust method. -/
def PowerSupply.set_charge_threshold_start (ps : PowerSupply) (fs : Fs)
    (charge_threshold_start : ℚ) :
    Except String Unit × PowerSupply × Fs :=
  match ps.charge_threshold_path_start with
  | none =>
    (.error "power supply does not support changing charge threshold levels",
      ps, fs)
  | some path =>
    match fs.write path (Nat.repr (f64AsU8 (charge_threshold_start * 100)))
      with
    | .error e => (.error e, ps, fs)
    | .ok fs2 =>
      (.ok (), { ps with charge_threshold_start := charge_threshold_start },
        fs2)

/-- PowerSupply::set_charge_threshold_end. -/
def PowerSupply.set_charge_threshold_end (ps : PowerSupply) (fs : Fs)
    (charge_threshold_end : ℚ) :
    Except String Unit × PowerSupply × Fs :=
  match ps.charge_threshold_path_end with
  | none =>
    (.error "power supply does not support changing charge threshold levels",
      ps, fs)
  | some path =>
    match fs.write path (Nat.repr (f64AsU8 (charge_threshold_end * 100)))
      with
    | .error e => (.error e, ps, fs)
    | .ok fs2 =>
      (.ok (), { ps with charge_threshold_end := charge_threshold_end },
        fs2)

/-- PowerSupply::get_available_platform_profiles. -/
def getAvailablePlatformProfiles (fs : Fs) : List String :=
  match fs.read "/sys/firmware/acpi/platform_profile_choices" with
  | none => []
  | some content => splitWhitespace content

/-- Modelled from the spec: power_supply::Delta, the optional-field patch
over a power supply, is referenced by src/watt/system.rs (run_daemon)
and filled by src/watt/config.rs (PowersDelta::eval) but its definition
is not among the provided sources. Per the spec (section 3, Delta) it
has the two governed fields below. -/
structure PowerDelta where
  charge_threshold_start : Option ℚ := none
  charge_threshold_end : Option ℚ := none
  deriving DecidableEq

instance : Inhabited PowerDelta := ⟨{}⟩

/-- Modelled from the spec: accumulator-wins merge of two power deltas. -/
def PowerDelta.or (self other : PowerDelta) : PowerDelta where
  charge_threshold_start :=
    self.charge_threshold_start.or other.charge_threshold_start
  charge_threshold_end :=
    self.charge_threshold_end.or other.charge_threshold_end

/-- Modelled from the spec: a power delta is saturated when both governed
fields are set. -/
def PowerDelta.is_some (d : PowerDelta) : Bool :=
  d.charge_threshold_start.isSome && d.charge_threshold_end.isSome

/-! ## src/watt/system.rs: telemetry logs and derivations -/

/-- One CPU telemetry sample (src/watt/system.rs, struct CpuLog). The
instant is milliseconds since an arbitrary origin. -/
structure CpuLog where
  at_ : ℕ
  usage : ℚ
  temperature : ℚ
  deriving DecidableEq

/-- One power-supply telemetry sample (src/watt/system.rs, struct
PowerSupplyLog). -/
structure PowerSupplyLog where
  at_ : ℕ
  charge : ℚ
  deriving DecidableEq

/-- The front-popping while loop of System::scan (and of Daemon::rescan
in src/watt/daemon.rs): pop the oldest entry while the length exceeds
100. -/
def popWhileTooLong {L : Type} : List L → List L
  | [] => []
  | x :: rest =>
    if (x :: rest).length > 100 then popWhileTooLong rest else x :: rest

/-- The append step of System::scan for either telemetry ring: first the
eviction loop, then push_back of the new sample. -/
def logCapAppend {L : Type} (log : List L) (x : L) : List L :=
  popWhileTooLong log ++ [x]

/-- Instant subtraction in current Rust: Instant::sub saturates to the
zero duration when the right-hand instant is later. Instants are in
milliseconds here, so this is truncated natural subtraction. -/
def instantSubMs (a b : ℕ) : ℕ :=
  a - b

def collectIncreasingChargeGo (last : ℚ) :
    List PowerSupplyLog → List PowerSupplyLog
  | [] => []
  | y :: ys =>
    if y.charge > last then y :: collectIncreasingChargeGo y.charge ys
    else []

/-- The take_while closure of System::power_supply_discharge_rate: the
first sample (newest) is always taken, every further sample is taken
while its charge strictly exceeds the previously seen charge. The input
is the ring walked newest-to-oldest. -/
def collectIncreasingCharge : List PowerSupplyLog → List PowerSupplyLog
  | [] => []
  | x :: xs => x :: collectIncreasingChargeGo x.charge xs

/-- The (start, end) pair selected by System::power_supply_discharge_rate
when at least two monotone samples were collected: start is the last
collected (oldest, most charge), end the first collected (newest). -/
def dischargeWindow (log : List PowerSupplyLog) :
    Option (PowerSupplyLog × PowerSupplyLog) :=
  let discharging := collectIncreasingCharge log.reverse
  if discharging.length < 2 then none
  else
    match discharging.getLast?, discharging.head? with
    | some start, some endLog => some (start, endLog)
    | _, _ => none

/-- The duration, in seconds, that System::power_supply_discharge_rate
computes between its start and end samples: start.at - end.at with
saturating Instant subtraction. -/
def dischargeDurationSeconds (log : List PowerSupplyLog) : Option ℚ :=
  (dischargeWindow log).map
    (fun w => (instantSubMs w.fst.at_ w.snd.at_ : ℚ) / 1000)

/-- System::power_supply_discharge_rate. The final f64 division is
modelled with rational division; note that when the computed duration is
zero the f64 code yields positive infinity while rational division
yields 0 - the claims about this function only depend on the duration
and window, which are exact. -/
def power_supply_discharge_rate (log : List PowerSupplyLog) : Option ℚ :=
  match dischargeWindow log with
  | none => none
  | some w =>
    let discharging_duration_seconds :=
      (instantSubMs w.fst.at_ w.snd.at_ : ℚ) / 1000
    let discharging_duration_hours :=
      discharging_duration_seconds / 60 / 60
    let discharged := w.fst.charge - w.snd.charge
    some (discharged / discharging_duration_hours)

/-- idle_multiplier (src/watt/system.rs). The argument is the idle
duration in milliseconds; as_secs truncates it to whole seconds. The
logarithm forces a real-valued model. -/
noncomputable def idle_multiplier (idle_for_ms : ℕ) : ℝ :=
  let secs : ℕ := idle_for_ms / 1000
  let factor : ℝ :=
    if secs < 120 then (secs : ℝ) / 120
    else Real.logb 2 ((secs : ℝ) / 60)
  min (max (1 + factor) 1) 5

/-! ## src/watt/config.rs: the expression language -/

/-- The expression tree (src/watt/config.rs, enum Expression). Constructor
names are the Rust variant names in lowerCamelCase; literal values are
the boolean / number / string / list constructors, exactly as in the
source where evaluation returns Expression values. -/
inductive Expression where
  | isGovernorAvailable (value : Expression)
  | isEnergyPerformancePreferenceAvailable (value : Expression)
  | isEnergyPerfBiasAvailable (value : Expression)
  | isPlatformProfileAvailable (value : Expression)
  | isDriverLoaded (value : Expression)
  | frequencyAvailable
  | turboAvailable
  | cpuUsage
  | cpuUsageVolatility
  | cpuUsageSince (duration : String)
  | cpuTemperature
  | cpuTemperatureVolatility
  | cpuIdleSeconds
  | cpuFrequencyMaximum
  | cpuFrequencyMinimum
  | cpuScalingMaximum
  | cpuCoreCount
  | loadAverage1m
  | loadAverage5m
  | loadAverage15m
  | lidClosed
  | hourOfDay
  | powerSupplyCharge
  | powerSupplyDischargeRate
  | batteryCycles
  | batteryHealth
  | discharging
  | boolean (b : Bool)
  | number (n : ℚ)
  | string (s : String)
  | list (items : List Expression)
  | plus (a b : Expression)
  | minus (a b : Expression)
  | multiply (a b : Expression)
  | power (a b : Expression)
  | divide (a b : Expression)
  | lessThan (a b : Expression)
  | moreThan (a b : Expression)
  | minimum (numbers : List Expression)
  | maximum (numbers : List Expression)
  | ifElse (condition consequence : Expression)
      (alternative : Option Expression)
  | isUnset (a : Expression)
  | and (a b : Expression)
  | or (a b : Expression)
  | all (xs : List Expression)
  | any (xs : List Expression)
  | not (x : Expression)
  | equal (a b leeway : Expression)

/-- Expression::try_into_number. -/
def Expression.try_into_number : Expression → Except String ℚ
  | .number n => .ok n
  | _ => .error "tried to cast to a number, failed"

/-- Expression::try_into_boolean. -/
def Expression.try_into_boolean : Expression → Except String Bool
  | .boolean b => .ok b
  | _ => .error "tried to cast to a boolean, failed"

/-- Expression::try_into_string. -/
def Expression.try_into_string : Expression → Except String String
  | .string s => .ok s
  | _ => .error "tried to cast to a string, failed"

/-- Expression::try_into_list. -/
def Expression.try_into_list : Expression → Except String (List Expression)
  | .list items => .ok items
  | _ => .error "tried to cast to a list, failed"

/-- The evaluation context tag (src/watt/config.rs, enum EvalContext). -/
inductive EvalContext where
  | cpu (c : Cpu)
  | powerSupply (p : PowerSupply)
  | widestPossible

/-- The evaluation state (src/watt/config.rs, struct EvalState). -/
structure EvalState where
  frequency_available : Bool
  turbo_available : Bool
  cpu_usage : ℚ
  cpu_usage_volatility : Option ℚ
  cpu_temperature : Option ℚ
  cpu_temperature_volatility : Option ℚ
  cpu_idle_seconds : ℚ
  cpu_frequency_maximum : Option ℚ
  cpu_frequency_minimum : Option ℚ
  cpu_scaling_maximum : Option ℚ
  cpu_core_count : ℕ
  load_average_1m : ℚ
  load_average_5m : ℚ
  load_average_15m : ℚ
  lid_closed : Bool
  power_supply_charge : Option ℚ
  power_supply_discharge_rate : Option ℚ
  battery_cycles : Option ℚ
  battery_health : Option ℚ
  discharging : Bool
  context : EvalContext
  cpus : List Cpu
  power_supplies : List PowerSupply
  cpu_log : List CpuLog

/-- EvalState::in_context. -/
def EvalState.in_context (s : EvalState) (context : EvalContext) :
    EvalState :=
  { s with context := context }

/-- The ambient effects the Rust evaluator performs outside EvalState:
the sysfs tree (is-driver-loaded, is-platform-profile-available), the
local wall-clock hour (hour-of-day, None models a timezone error), the
humantime duration parser (None models a parse failure), the current
instant in milliseconds, and f64::powf, which is transcendental and kept
as an opaque parameter of the model. -/
structure World where
  fs : Fs
  localHour : Option ℤ
  parseDuration : String → Option ℕ
  now : ℕ
  powf : ℚ → ℚ → ℚ

/-- The result type of Expression::eval: anyhow errors, or an optional
value where None is the first-class Undefined. -/
abbrev EvalResult := Except String (Option Expression)

mutual

/-- Expression::eval (src/watt/config.rs). Every arm mirrors the Rust
match arm of the same name; the eval! macro of the source corresponds
to the `ok none` early returns. -/
def Expression.eval : Expression → World → EvalState → EvalResult
  | .isGovernorAvailable value, w, s =>
    match value.eval w s with
    | .error e => .error e
    | .ok none => .ok none
    | .ok (some v) =>
      match v.try_into_string with
      | .error e => .error e
      | .ok value =>
        let available :=
          match s.context with
          | .cpu cpu => cpu.available_governors.contains value
          | .powerSupply _ => false
          | .widestPossible =>
            s.cpus.any (fun cpu => cpu.available_governors.contains value)
        .ok (some (.boolean available))
  | .isEnergyPerformancePreferenceAvailable value, w, s =>
    match value.eval w s with
    | .error e => .error e
    | .ok none => .ok none
    | .ok (some v) =>
      match v.try_into_string with
      | .error e => .error e
      | .ok value =>
        let available :=
          match s.context with
          | .cpu cpu => cpu.available_epps.contains value
          | .powerSupply _ => false
          | .widestPossible =>
            s.cpus.any (fun cpu => cpu.available_epps.contains value)
        .ok (some (.boolean available))
  | .isEnergyPerfBiasAvailable value, w, s =>
    match value.eval w s with
    | .error e => .error e
    | .ok none => .ok none
    | .ok (some v) =>
      match v.try_into_string with
      | .error e => .error e
      | .ok value =>
        let available :=
          match s.context with
          | .cpu cpu => cpu.available_epbs.contains value
          | .powerSupply _ => false
          | .widestPossible =>
            s.cpus.any (fun cpu => cpu.available_epbs.contains value)
        .ok (some (.boolean available))
  | .isPlatformProfileAvailable value, w, s =>
    match value.eval w s with
    | .error e => .error e
    | .ok none => .ok none
    | .ok (some v) =>
      match v.try_into_string with
      | .error e => .error e
      | .ok value =>
        let available := (getAvailablePlatformProfiles w.fs).contains value
        .ok (some (.boolean available))
  | .isDriverLoaded value, w, s =>
    match value.eval w s with
    | .error e => .error e
    | .ok none => .ok none
    | .ok (some v) =>
      match v.try_into_string with
      | .error e => .error e
      | .ok value =>
        .ok (some (.boolean (w.fs.existsPath ("/sys/module/" ++ value))))
  | .frequencyAvailable, _, s => .ok (some (.boolean s.frequency_available))
  | .turboAvailable, _, s => .ok (some (.boolean s.turbo_available))
  | .cpuUsage, _, _ =>
    .error "cpu-usage is deprecated and has been removed, use cpu-usage-since instead"
  | .cpuUsageSince duration, w, s =>
    match w.parseDuration duration with
    | none => .error "failed to parse duration"
    | some duration =>
      let recent_logs := s.cpu_log.reverse.takeWhile
        (fun log => instantSubMs w.now log.at_ < duration)
      if recent_logs.length < 2 then .ok none
      else
        .ok (some (.number
          ((recent_logs.map (fun log => log.usage)).sum
            / (recent_logs.length : ℚ))))
  | .cpuUsageVolatility, _, s =>
    match s.cpu_usage_volatility with
    | none => .ok none
    | some v => .ok (some (.number v))
  | .cpuTemperature, _, s =>
    match s.cpu_temperature with
    | none => .ok none
    | some v => .ok (some (.number v))
  | .cpuTemperatureVolatility, _, s =>
    match s.cpu_temperature_volatility with
    | none => .ok none
    | some v => .ok (some (.number v))
  | .cpuIdleSeconds, _, s => .ok (some (.number s.cpu_idle_seconds))
  | .cpuFrequencyMaximum, _, s =>
    match s.cpu_frequency_maximum with
    | none => .ok none
    | some v => .ok (some (.number v))
  | .cpuFrequencyMinimum, _, s =>
    match s.cpu_frequency_minimum with
    | none => .ok none
    | some v => .ok (some (.number v))
  | .cpuScalingMaximum, _, s =>
    match s.cpu_scaling_maximum with
    | none => .ok none
    | some v => .ok (some (.number v))
  | .cpuCoreCount, _, s => .ok (some (.number (s.cpu_core_count : ℚ)))
  | .loadAverage1m, _, s => .ok (some (.number s.load_average_1m))
  | .loadAverage5m, _, s => .ok (some (.number s.load_average_5m))
  | .loadAverage15m, _, s => .ok (some (.number s.load_average_15m))
  | .lidClosed, _, s => .ok (some (.boolean s.lid_closed))
  | .hourOfDay, w, _ =>
    match w.localHour with
    | none => .error "failed to get local timezone for hour-of-day"
    | some h => .ok (some (.number (h : ℚ)))
  | .powerSupplyCharge, _, s =>
    match s.power_supply_charge with
    | none => .ok none
    | some v => .ok (some (.number v))
  | .powerSupplyDischargeRate, _, s =>
    match s.power_supply_discharge_rate with
    | none => .ok none
    | some v => .ok (some (.number v))
  | .batteryCycles, _, s =>
    match s.battery_cycles with
    | none => .ok none
    | some v => .ok (some (.number v))
  | .batteryHealth, _, s =>
    match s.battery_health with
    | none => .ok none
    | some v => .ok (some (.number v))
  | .discharging, _, s => .ok (some (.boolean s.discharging))
  | .boolean b, _, _ => .ok (some (.boolean b))
  | .number n, _, _ => .ok (some (.number n))
  | .string t, _, _ => .ok (some (.string t))
  | .list items, w, s =>
    match Expression.evalItems items w s with
    | .error e => .error e
    | .ok none => .ok none
    | .ok (some result) => .ok (some (.list result))
  | .plus a b, w, s =>
    match a.eval w s with
    | .error e => .error e
    | .ok none => .ok none
    | .ok (some va) =>
      match va.try_into_number with
      | .error e => .error e
      | .ok na =>
        match b.eval w s with
        | .error e => .error e
        | .ok none => .ok none
        | .ok (some vb) =>
          match vb.try_into_number with
          | .error e => .error e
          | .ok nb => .ok (some (.number (na + nb)))
  | .minus a b, w, s =>
    match a.eval w s with
    | .error e => .error e
    | .ok none => .ok none
    | .ok (some va) =>
      match va.try_into_number with
      | .error e => .error e
      | .ok na =>
        match b.eval w s with
        | .error e => .error e
        | .ok none => .ok none
        | .ok (some vb) =>
          match vb.try_into_number with
          | .error e => .error e
          | .ok nb => .ok (some (.number (na - nb)))
  | .multiply a b, w, s =>
    match a.eval w s with
    | .error e => .error e
    | .ok none => .ok none
    | .ok (some va) =>
      match va.try_into_number with
      | .error e => .error e
      | .ok na =>
        match b.eval w s with
        | .error e => .error e
        | .ok none => .ok none
        | .ok (some vb) =>
          match vb.try_into_number with
          | .error e => .error e
          | .ok nb => .ok (some (.number (na * nb)))
  | .power a b, w, s =>
    match a.eval w s with
    | .error e => .error e
    | .ok none => .ok none
    | .ok (some va) =>
      match va.try_into_number with
      | .error e => .error e
      | .ok na =>
        match b.eval w s with
        | .error e => .error e
        | .ok none => .ok none
        | .ok (some vb) =>
          match vb.try_into_number with
          | .error e => .error e
          | .ok nb => .ok (some (.number (w.powf na nb)))
  | .divide a b, w, s =>
    match a.eval w s with
    | .error e => .error e
    | .ok none => .ok none
    | .ok (some va) =>
      match va.try_into_number with
      | .error e => .error e
      | .ok na =>
        match b.eval w s with
        | .error e => .error e
        | .ok none => .ok none
        | .ok (some vb) =>
          match vb.try_into_number with
          | .error e => .error e
          | .ok nb => .ok (some (.number (na / nb)))
  | .lessThan a b, w, s =>
    match a.eval w s with
    | .error e => .error e
    | .ok none => .ok none
    | .ok (some va) =>
      match va.try_into_number with
      | .error e => .error e
      | .ok na =>
        match b.eval w s with
        | .error e => .error e
        | .ok none => .ok none
        | .ok (some vb) =>
          match vb.try_into_number with
          | .error e => .error e
          | .ok nb => .ok (some (.boolean (na < nb)))
  | .moreThan a b, w, s =>
    match a.eval w s with
    | .error e => .error e
    | .ok none => .ok none
    | .ok (some va) =>
      match va.try_into_number with
      | .error e => .error e
      | .ok na =>
        match b.eval w s with
        | .error e => .error e
        | .ok none => .ok none
        | .ok (some vb) =>
          match vb.try_into_number with
          | .error e => .error e
          | .ok nb => .ok (some (.boolean (na > nb)))
  | .minimum numbers, w, s =>
    match Expression.evalNumbers numbers w s with
    | .error e => .error e
    | .ok none => .ok none
    | .ok (some evaled) =>
      match evaled with
      | [] => .error "minimum must be given at least 1 expression"
      | x :: xs => .ok (some (.number (xs.foldl min x)))
  | .maximum numbers, w, s =>
    match Expression.evalNumbers numbers w s with
    | .error e => .error e
    | .ok none => .ok none
    | .ok (some evaled) =>
      match evaled with
      | [] => .error "maximum must be given at least 1 expression"
      | x :: xs => .ok (some (.number (xs.foldl max x)))
  | .ifElse condition consequence alternative, w, s =>
    match condition.eval w s with
    | .error e => .error e
    | .ok none => .ok none
    | .ok (some vc) =>
      match vc.try_into_boolean with
      | .error e => .error e
      | .ok true =>
        match consequence.eval w s with
        | .error e => .error e
        | .ok none => .ok none
        | .ok (some v) => .ok (some v)
      | .ok false =>
        match alternative with
        | some alternative =>
          match alternative.eval w s with
          | .error e => .error e
          | .ok none => .ok none
          | .ok (some v) => .ok (some v)
        | none => .ok none
  | .isUnset a, w, s =>
    match a.eval w s with
    | .error e => .error e
    | .ok v => .ok (some (.boolean v.isNone))
  | .and a b, w, s =>
    match a.eval w s with
    | .error e => .error e
    | .ok none => .ok none
    | .ok (some va) =>
      match va.try_into_boolean with
      | .error e => .error e
      | .ok false => .ok (some (.boolean false))
      | .ok true =>
        match b.eval w s with
        | .error e => .error e
        | .ok none => .ok none
        | .ok (some vb) =>
          match vb.try_into_boolean with
          | .error e => .error e
          | .ok bb => .ok (some (.boolean bb))
  | .or a b, w, s =>
    match a.eval w s with
    | .error e => .error e
    | .ok none => .ok none
    | .ok (some va) =>
      match va.try_into_boolean with
      | .error e => .error e
      | .ok true => .ok (some (.boolean true))
      | .ok false =>
        match b.eval w s with
        | .error e => .error e
        | .ok none => .ok none
        | .ok (some vb) =>
          match vb.try_into_boolean with
          | .error e => .error e
          | .ok bb => .ok (some (.boolean bb))
  | .all xs, w, s => Expression.evalAllLoop xs w s
  | .any xs, w, s => Expression.evalAnyLoop xs w s
  | .not x, w, s =>
    match x.eval w s with
    | .error e => .error e
    | .ok none => .ok none
    | .ok (some v) =>
      match v.try_into_boolean with
      | .error e => .error e
      | .ok b => .ok (some (.boolean (!b)))
  | .equal a b leeway, w, s =>
    match a.eval w s with
    | .error e => .error e
    | .ok none => .ok none
    | .ok (some va) =>
      match va.try_into_number with
      | .error e => .error e
      | .ok na =>
        match b.eval w s with
        | .error e => .error e
        | .ok none => .ok none
        | .ok (some vb) =>
          match vb.try_into_number with
          | .error e => .error e
          | .ok nb =>
            match leeway.eval w s with
            | .error e => .error e
            | .ok none => .ok none
            | .ok (some vl) =>
              match vl.try_into_number with
              | .error e => .error e
              | .ok nl =>
                let minimum := na - nl
                let maximum := na + nl
                .ok (some (.boolean (minimum < nb && nb < maximum)))

/-- The element loop of the List arm of Expression::eval. -/
def Expression.evalItems :
    List Expression → World → EvalState →
      Except String (Option (List Expression))
  | [], _, _ => .ok (some [])
  | x :: rest, w, s =>
    match x.eval w s with
    | .error e => .error e
    | .ok none => .ok none
    | .ok (some v) =>
      match Expression.evalItems rest w s with
      | .error e => .error e
      | .ok none => .ok none
      | .ok (some vs) => .ok (some (v :: vs))

/-- The element loop of the Minimum / Maximum arms of Expression::eval:
each element must evaluate to a number. -/
def Expression.evalNumbers :
    List Expression → World → EvalState → Except String (Option (List ℚ))
  | [], _, _ => .ok (some [])
  | x :: rest, w, s =>
    match x.eval w s with
    | .error e => .error e
    | .ok none => .ok none
    | .ok (some v) =>
      match v.try_into_number with
      | .error e => .error e
      | .ok n =>
        match Expression.evalNumbers rest w s with
        | .error e => .error e
        | .ok none => .ok none
        | .ok (some ns) => .ok (some (n :: ns))

/-- The loop of the All arm of Expression::eval. -/
def Expression.evalAllLoop :
    List Expression → World → EvalState → EvalResult
  | [], _, _ => .ok (some (.boolean true))
  | x :: rest, w, s =>
    match x.eval w s with
    | .error e => .error e
    | .ok none => .ok none
    | .ok (some v) =>
      match v.try_into_boolean with
      | .error e => .error e
      | .ok false => .ok (some (.boolean false))
      | .ok true => Expression.evalAllLoop rest w s

/-- The loop of the Any arm of Expression::eval. -/
def Expression.evalAnyLoop :
    List Expression → World → EvalState → EvalResult
  | [], _, _ => .ok (some (.boolean false))
  | x :: rest, w, s =>
    match x.eval w s with
    | .error e => .error e
    | .ok none => .ok none
    | .ok (some v) =>
      match v.try_into_boolean with
      | .error e => .error e
      | .ok true => .ok (some (.boolean true))
      | .ok false => Expression.evalAnyLoop rest w s

end

/-! ## src/watt/config.rs: delta specs, rules, config loading -/

/-- The CPU part of a rule (src/watt/config.rs, struct CpusDelta); every
field is an optional expression. -/
structure CpusDelta where
  for_ : Option Expression := none
  governor : Option Expression := none
  energy_performance_preference : Option Expression := none
  energy_perf_bias : Option Expression := none
  frequency_mhz_minimum : Option Expression := none
  frequency_mhz_maximum : Option Expression := none
  turbo : Option Expression := none

instance : Inhabited CpusDelta := ⟨{}⟩

/-- CpusDelta::eval: resolve the target CPUs, evaluate every present
field in each target context, and the turbo scalar in the outer
context. Undefined fields stay unset in the per-target delta. -/
def CpusDelta.eval (d : CpusDelta) (w : World) (s : EvalState) :
    Except String (List (Cpu × CpuDelta) × Option Bool) := do
  let cpus ←
    match d.for_ with
    | some numbers => do
      let numbers ←
        match numbers.eval w s with
        | .error e => throw e
        | .ok none => throw "cpu.for resolved to undefined"
        | .ok (some v) => pure v
      let numbers ← numbers.try_into_list
      let numbers ← numbers.mapM (fun number => do
        let number ← number.try_into_number
        if number.den ≠ 1 then
          throw "invalid CPU in cpu.for"
        else
          pure (f64AsNat number))
      pure (s.cpus.filter (fun cpu => numbers.contains cpu.number))
    | none => pure s.cpus
  let deltas ← cpus.mapM (fun cpu => do
    let sc := s.in_context (.cpu cpu)
    let delta : CpuDelta := {}
    let delta : CpuDelta ←
      match d.governor with
      | some governor =>
        match governor.eval w sc with
        | .error e => throw e
        | .ok none => pure delta
        | .ok (some governor) => do
          let governor ← governor.try_into_string
          pure { delta with governor := some governor }
      | none => pure delta
    let delta : CpuDelta ←
      match d.energy_performance_preference with
      | some energy_performance_preference =>
        match energy_performance_preference.eval w sc with
        | .error e => throw e
        | .ok none => pure delta
        | .ok (some energy_performance_preference) => do
          let energy_performance_preference ←
            energy_performance_preference.try_into_string
          pure { delta with
            energy_performance_preference :=
              some energy_performance_preference }
      | none => pure delta
    let delta : CpuDelta ←
      match d.energy_perf_bias with
      | some energy_perf_bias =>
        match energy_perf_bias.eval w sc with
        | .error e => throw e
        | .ok none => pure delta
        | .ok (some energy_perf_bias) => do
          let energy_perf_bias ← energy_perf_bias.try_into_string
          pure { delta with energy_perf_bias := some energy_perf_bias }
      | none => pure delta
    let delta : CpuDelta ←
      match d.frequency_mhz_minimum with
      | some frequency_mhz_minimum =>
        match frequency_mhz_minimum.eval w sc with
        | .error e => throw e
        | .ok none => pure delta
        | .ok (some frequency_mhz_minimum) => do
          let frequency_mhz_minimum ←
            frequency_mhz_minimum.try_into_number
          let rounded_value : ℕ :=
            if frequency_mhz_minimum.den ≠ 1 then
              Int.toNat (f64Round frequency_mhz_minimum)
            else f64AsNat frequency_mhz_minimum
          pure { delta with frequency_mhz_minimum := some rounded_value }
      | none => pure delta
    let delta : CpuDelta ←
      match d.frequency_mhz_maximum with
      | some frequency_mhz_maximum =>
        match frequency_mhz_maximum.eval w sc with
        | .error e => throw e
        | .ok none => pure delta
        | .ok (some frequency_mhz_maximum) => do
          let frequency_mhz_maximum ←
            frequency_mhz_maximum.try_into_number
          let rounded_value : ℕ :=
            if frequency_mhz_maximum.den ≠ 1 then
              Int.toNat (f64Round frequency_mhz_maximum)
            else f64AsNat frequency_mhz_maximum
          pure { delta with frequency_mhz_maximum := some rounded_value }
      | none => pure delta
    pure (cpu, delta))
  let turbo : Option Bool ←
    match d.turbo with
    | some turbo =>
      match turbo.eval w s with
      | .error e => throw e
      | .ok none => pure none
      | .ok (some turbo) => do
        let turbo ← turbo.try_into_boolean
        pure (some turbo)
    | none => pure none
  pure (deltas, turbo)

/-- The power part of a rule (src/watt/config.rs, struct PowersDelta). -/
structure PowersDelta where
  for_ : Option Expression := none
  charge_threshold_start : Option Expression := none
  charge_threshold_end : Option Expression := none
  platform_profile : Option Expression := none

instance : Inhabited PowersDelta := ⟨{}⟩

/-- PowersDelta::eval. -/
def PowersDelta.eval (d : PowersDelta) (w : World) (s : EvalState) :
    Except String (List (PowerSupply × PowerDelta) × Option String) := do
  let power_supplies ←
    match d.for_ with
    | some names => do
      let names ←
        match names.eval w s with
        | .error e => throw e
        | .ok none => throw "power.for resolved to undefined"
        | .ok (some v) => pure v
      let names ← names.try_into_list
      let names ← names.mapM (fun name => name.try_into_string)
      pure (s.power_supplies.filter
        (fun power_supply => names.contains power_supply.name))
    | none => pure s.power_supplies
  let deltas ← power_supplies.mapM (fun power_supply => do
    let sc := s.in_context (.powerSupply power_supply)
    let delta : PowerDelta := {}
    let delta : PowerDelta ←
      match d.charge_threshold_start with
      | some threshold_start =>
        match threshold_start.eval w sc with
        | .error e => throw e
        | .ok none => pure delta
        | .ok (some threshold_start) => do
          let threshold_start ← threshold_start.try_into_number
          pure { delta with
            charge_threshold_start := some (threshold_start / 100) }
      | none => pure delta
    let delta : PowerDelta ←
      match d.charge_threshold_end with
      | some threshold_end =>
        match threshold_end.eval w sc with
        | .error e => throw e
        | .ok none => pure delta
        | .ok (some threshold_end) => do
          let threshold_end ← threshold_end.try_into_number
          pure { delta with
            charge_threshold_end := some (threshold_end / 100) }
      | none => pure delta
    pure (power_supply, delta))
  let platform_profile : Option String ←
    match d.platform_profile with
    | some platform_profile =>
      match platform_profile.eval w s with
      | .error e => throw e
      | .ok none => pure none
      | .ok (some platform_profile) => do
        let platform_profile ← platform_profile.try_into_string
        pure (some platform_profile)
    | none => pure none
  pure (deltas, platform_profile)

/-- One rule (src/watt/config.rs, struct Rule). The priority is a u16 in
the source; the claims do not exercise the upper bound, a natural
suffices. -/
structure Rule where
  name : String
  priority : ℕ
  condition : Expression := .boolean true
  cpu : CpusDelta := {}
  power : PowersDelta := {}

/-- The parsed daemon config (src/watt/config.rs, struct DaemonConfig). -/
structure DaemonConfig where
  rules : List Rule

/-- The duplicate-priority validation loop of DaemonConfig::load_from.
The second argument is the priorities vector accumulated so far. -/
def checkPriorities : List Rule → List ℕ → Except String Unit
  | [], _ => .ok ()
  | rule :: rest, priorities =>
    if priorities.contains rule.priority then
      .error "each config rule must have a different priority"
    else checkPriorities rest (priorities ++ [rule.priority])

/-- The validation and sorting part of DaemonConfig::load_from, applied
to an already-parsed config: fail on duplicate priorities, then stable
sort ascending by priority (Rust sort_by_key is a stable merge sort,
modelled by List.mergeSort). The TOML deserialization layer is outside
the model; its output is the input here. -/
def DaemonConfig.load_from_parsed (config : DaemonConfig) :
    Except String DaemonConfig := do
  checkPriorities config.rules []
  pure ⟨config.rules.mergeSort
    (fun a b => decide (a.priority ≤ b.priority))⟩

/-! ## src/watt/system.rs: the rule fold of run_daemon -/

/-- The accumulators of the rule loop in run_daemon: one delta per CPU,
one per power supply, and the two system scalars. -/
structure FoldAcc where
  cpu_deltas : List (Cpu × CpuDelta)
  cpu_turbo : Option Bool
  power_deltas : List (PowerSupply × PowerDelta)
  power_platform_profile : Option String

/-- The cpu_deltas.iter_mut().all(..) closure of run_daemon. Each
accumulator delta is merged with the matching per-rule delta
(mem::take + Delta::or, accumulator wins) and then tested for
saturation; like Iterator::all, the loop stops at the first delta that
is not saturated, leaving the remaining accumulator entries unmerged.
Returns the updated accumulator list and the value of all(..); the
missing-key case is the .expect panic of the source, modelled as an
error. -/
def mergeCpuDeltas (lo : List (Cpu × CpuDelta)) :
    List (Cpu × CpuDelta) → Except String (List (Cpu × CpuDelta) × Bool)
  | [] => .ok ([], true)
  | (cpu, delta) :: rest =>
    match lo.find? (fun p => p.fst == cpu) with
    | none => .error "cpu deltas and cpus should match"
    | some (_, delta_lo) =>
      let delta := delta.or delta_lo
      if delta.is_some then
        match mergeCpuDeltas lo rest with
        | .error e => .error e
        | .ok (rest2, b) => .ok ((cpu, delta) :: rest2, b)
      else .ok ((cpu, delta) :: rest, false)

/-- The power_deltas.iter_mut().all(..) closure of run_daemon; same
shape as mergeCpuDeltas. -/
def mergePowerDeltas (lo : List (PowerSupply × PowerDelta)) :
    List (PowerSupply × PowerDelta) →
      Except String (List (PowerSupply × PowerDelta) × Bool)
  | [] => .ok ([], true)
  | (power, delta) :: rest =>
    match lo.find? (fun p => p.fst == power) with
    | none => .error "power deltas and power supplies should match"
    | some (_, delta_lo) =>
      let delta := delta.or delta_lo
      if delta.is_some then
        match mergePowerDeltas lo rest with
        | .error e => .error e
        | .ok (rest2, b) => .ok ((power, delta) :: rest2, b)
      else .ok ((power, delta) :: rest, false)

/-- The body of the rule loop of run_daemon (src/watt/system.rs,
lines 822-883). The rule list argument is already reversed: run_daemon
iterates config.rules.iter().rev(), highest priority first. A rule whose
condition is Undefined is skipped; a non-boolean condition is an error;
a false condition skips the rule; a true condition evaluates and merges
both delta specs, and when every accumulator delta is saturated and both
scalars are set the loop short-circuits. -/
def applyRulesFold (w : World) (s : EvalState) :
    List Rule → FoldAcc → Except String FoldAcc
  | [], acc => .ok acc
  | rule :: rest, acc =>
    match rule.condition.eval w s with
    | .error e => .error e
    | .ok none => applyRulesFold w s rest acc
    | .ok (some condition) =>
      match condition.try_into_boolean with
      | .error _ => .error "if was not a boolean"
      | .ok false => applyRulesFold w s rest acc
      | .ok true =>
        match rule.cpu.eval w s with
        | .error e => .error e
        | .ok (cpu_deltas_lo, cpu_turbo_lo) =>
          match mergeCpuDeltas cpu_deltas_lo acc.cpu_deltas with
          | .error e => .error e
          | .ok (cpu_deltas, deltas_some) =>
            let cpu_turbo := acc.cpu_turbo.or cpu_turbo_lo
            let cpu_some := deltas_some && cpu_turbo.isSome
            match rule.power.eval w s with
            | .error e => .error e
            | .ok (power_deltas_lo, power_platform_profile_lo) =>
              match mergePowerDeltas power_deltas_lo acc.power_deltas with
              | .error e => .error e
              | .ok (power_deltas, power_deltas_some) =>
                let power_platform_profile :=
                  acc.power_platform_profile.or power_platform_profile_lo
                let power_some :=
                  power_deltas_some && power_platform_profile.isSome
                let acc : FoldAcc :=
                  ⟨cpu_deltas, cpu_turbo, power_deltas,
                    power_platform_profile⟩
                if cpu_some && power_some then .ok acc
                else applyRulesFold w s rest acc

/-- The full rule fold of one run_daemon tick: default accumulators for
every CPU and power supply of the state, rules folded in reverse
(descending priority) order. -/
def run_daemon_fold (w : World) (s : EvalState) (config : DaemonConfig) :
    Except String FoldAcc :=
  applyRulesFold w s config.rules.reverse
    ⟨s.cpus.map (fun cpu => (cpu, {})), none,
      s.power_supplies.map (fun power_supply => (power_supply, {})), none⟩

/-- The governor field accumulated for one CPU by the fold. -/
def foldGovernorOf (acc : FoldAcc) (cpu : Cpu) : Option String :=
  match acc.cpu_deltas.find? (fun p => p.fst == cpu) with
  | none => none
  | some (_, delta) => delta.governor

/-! ## Concrete instances used by the claim theorems -/

/-- An empty sysfs tree. -/
def emptyFs : Fs := ⟨[], [], []⟩

/-- A world with an empty sysfs tree and inert external effects. -/
def world0 : World where
  fs := emptyFs
  localHour := none
  parseDuration := fun _ => none
  now := 0
  powf := fun _ _ => 0

/-- A CPU record with index n, cpufreq present and two governors
advertised, zeroed counters. -/
def mkCpu (n : ℕ) : Cpu where
  number := n
  has_cpufreq := true
  available_governors := ["performance", "powersave", "schedutil"]
  governor := none
  frequency_mhz := none
  frequency_mhz_minimum := none
  frequency_mhz_maximum := none
  available_epps := []
  epp := none
  available_epbs := []
  epb := none
  stat := ⟨0, 0, 0, 0, 0, 0, 0, 0⟩
  info := none
  temperature := none

def cpu0 : Cpu := mkCpu 0
def cpu1 : Cpu := mkCpu 1

/-- An evaluation state with no peripherals and no telemetry. -/
def state0 : EvalState where
  frequency_available := false
  turbo_available := false
  cpu_usage := 0
  cpu_usage_volatility := none
  cpu_temperature := none
  cpu_temperature_volatility := none
  cpu_idle_seconds := 0
  cpu_frequency_maximum := none
  cpu_frequency_minimum := none
  cpu_scaling_maximum := none
  cpu_core_count := 0
  load_average_1m := 0
  load_average_5m := 0
  load_average_15m := 0
  lid_closed := false
  power_supply_charge := none
  power_supply_discharge_rate := none
  battery_cycles := none
  battery_health := none
  discharging := false
  context := .widestPossible
  cpus := []
  power_supplies := []
  cpu_log := []

/-- The state of a two-CPU system, used against the rule fold. -/
def state01 : EvalState := { state0 with cpus := [cpu0, cpu1] }

/-- A state whose CPU telemetry ring holds one sample. -/
def state1log : EvalState :=
  { state0 with cpus := [cpu0], cpu_log := [⟨0, 0, 0⟩] }

/-- Rule of priority 10: always matches, sets every governor to
schedutil. -/
def rulePrio10 : Rule where
  name := "low"
  priority := 10
  condition := .boolean true
  cpu := { governor := some (.string "schedutil") }
  power := {}

/-- Rule of priority 20: always matches, sets every governor to
powersave. -/
def rulePrio20 : Rule where
  name := "high"
  priority := 20
  condition := .boolean true
  cpu := { governor := some (.string "powersave") }
  power := {}

/-- Config with the two governor rules, sorted ascending by priority as
DaemonConfig::load_from leaves it. -/
def configTwoRules : DaemonConfig := ⟨[rulePrio10, rulePrio20]⟩

/-- A telemetry sample for the ring-buffer claims. -/
def cpuLogSample : CpuLog := ⟨0, 0, 0⟩

/-- Power-supply ring with two samples one hour apart: the older sample
(pushed first) holds more charge, so the battery discharged 10
percentage points over the hour. -/
def dischargeLog : List PowerSupplyLog :=
  [⟨0, 4 / 5⟩, ⟨3600000, 7 / 10⟩]

/-- The Standard vendor threshold profile. -/
def standardThresholdConfig : PowerSupplyThresholdConfig :=
  { manufacturer := "Standard",
    path_start := "charge_control_start_threshold",
    path_end := "charge_control_end_threshold" }

/-- A sysfs tree holding a Standard-profile laptop battery BAT0. -/
def bat0Fs : Fs where
  files :=
    [ ("/sys/class/power_supply/BAT0/type", "Battery"),
      ("/sys/class/power_supply/BAT0/energy_full", "50000000"),
      ("/sys/class/power_supply/BAT0/charge_control_start_threshold", "40"),
      ("/sys/class/power_supply/BAT0/charge_control_end_threshold", "80") ]
  dirs := ["/sys/class/power_supply/BAT0"]
  writeFails := []

/-- BAT0 with its detected Standard threshold profile. -/
def bat0 : PowerSupply :=
  { PowerSupply.fresh "BAT0" with
    type_ := "Battery"
    threshold_config := some standardThresholdConfig }

/-- Store a start threshold on BAT0 and read it back through rescan, as
in the round-trip claim. -/
def thresholdRoundTripStart (f : ℚ) : Except String ℚ :=
  match bat0.set_charge_threshold_start bat0Fs f with
  | (.ok _, ps2, fs2) =>
    (ps2.rescan fs2).map (fun ps => ps.charge_threshold_start)
  | (.error e, _, _) => .error e

/-- Store an end threshold on BAT0 and read it back through rescan. -/
def thresholdRoundTripEnd (f : ℚ) : Except String ℚ :=
  match bat0.set_charge_threshold_end bat0Fs f with
  | (.ok _, ps2, fs2) =>
    (ps2.rescan fs2).map (fun ps => ps.charge_threshold_end)
  | (.error e, _, _) => .error e

/-- A sysfs tree holding a Battery-typed peripheral (a wireless mouse)
that exposes the Standard threshold files. -/
def mouseFs : Fs where
  files :=
    [ ("/sys/class/power_supply/hid_mouse_battery/type", "Battery"),
      ("/sys/class/power_supply/hid_mouse_battery/charge_control_start_threshold",
        "40"),
      ("/sys/class/power_supply/hid_mouse_battery/charge_control_end_threshold",
        "80") ]
  dirs := ["/sys/class/power_supply/hid_mouse_battery"]
  writeFails := []

/-! ## Helper lemmas -/

/-- The eviction loop drops exactly the oldest entries beyond 100. -/
theorem popWhileTooLong_eq_drop {L : Type} :
    ∀ l : List L, popWhileTooLong l = l.drop (l.length - 100)
  | [] => by simp [popWhileTooLong]
  | x :: rest => by
    rw [popWhileTooLong]
    by_cases h : (x :: rest).length > 100
    · rw [if_pos h, popWhileTooLong_eq_drop rest]
      have hlen : (x :: rest).length - 100 = (rest.length - 100) + 1 := by
        simp only [List.length_cons] at h ⊢
        omega
      rw [hlen, List.drop_succ_cons]
    · rw [if_neg h]
      have hlen : (x :: rest).length - 100 = 0 := by
        simp only [List.length_cons, gt_iff_lt, not_lt] at h ⊢
        omega
      rw [hlen, List.drop_zero]

/-! ## C3: telemetry ring-buffer length cap and FIFO eviction -/

/-- C3 counterexample. The claim says the ring length never exceeds 100
after an append, but appending to a ring that already holds 100 entries
evicts nothing (the eviction loop runs only while the length exceeds
100) and leaves 101 entries. -/
theorem c3_ring_exceeds_100_counterexample :
    (logCapAppend (List.replicate 100 cpuLogSample) cpuLogSample).length
      = 101 := by
  rw [logCapAppend, popWhileTooLong_eq_drop]
  simp

/-- C3 amended: after each append the ring holds at most 101 entries
(the steady state is 101, not 100), and eviction is FIFO: the result is
the original buffer with its oldest length - 100 entries dropped, then
the new sample appended at the back, so time order is preserved. -/
theorem c3_ring_cap_101_fifo {L : Type} (log : List L) (x : L) :
    (logCapAppend log x).length ≤ 101 ∧
      logCapAppend log x = log.drop (log.length - 100) ++ [x] := by
  constructor
  · rw [logCapAppend, popWhileTooLong_eq_drop]
    simp only [List.length_append, List.length_drop, List.length_singleton]
    omega
  · rw [logCapAppend, popWhileTooLong_eq_drop]

/-! ## C4: the discharge-rate window divides by a zero duration -/

/-- C4: at a ring holding two samples one hour apart (oldest charge 0.8,
newest charge 0.7) the newest-to-oldest walk collects both samples, but
the duration the code computes is start.at - end.at where start is the
OLDER sample, which saturates to the zero duration, although the samples
are 3600000 ms = one hour apart. The f64 rate 0.1 / 0 is positive
infinity, not the 0.1 per hour the claim describes. -/
theorem c4_discharge_duration_saturates_to_zero :
    dischargeWindow dischargeLog =
      some (⟨0, 4 / 5⟩, ⟨3600000, 7 / 10⟩) ∧
    dischargeDurationSeconds dischargeLog = some 0 ∧
    instantSubMs 3600000 0 = 3600000 := by
  have hcol : collectIncreasingCharge dischargeLog.reverse =
      [⟨3600000, 7 / 10⟩, ⟨0, 4 / 5⟩] := by
    have hrev : dischargeLog.reverse =
        [⟨3600000, 7 / 10⟩, ⟨0, 4 / 5⟩] := by
      simp [dischargeLog]
    rw [hrev, collectIncreasingCharge, collectIncreasingChargeGo]
    norm_num [collectIncreasingChargeGo]
  have hwin : dischargeWindow dischargeLog =
      some (⟨0, 4 / 5⟩, ⟨3600000, 7 / 10⟩) := by
    simp [dischargeWindow, hcol]
  refine ⟨hwin, ?_, rfl⟩
  simp [dischargeDurationSeconds, hwin, instantSubMs]

/-! ## C6: the cpu-usage sensor term is deprecated and always errors -/

/-- C6 counterexample. With one telemetry sample in the ring (so the
last sample exists and has usage 0), evaluating the cpu-usage sensor
does not yield a Number: it fails with the deprecation error. -/
theorem c6_cpu_usage_errors_counterexample :
    state1log.cpu_log.length = 1 ∧
      Expression.cpuUsage.eval world0 state1log =
        .error "cpu-usage is deprecated and has been removed, use cpu-usage-since instead" :=
  ⟨rfl, rfl⟩

/-- C6 amended: evaluating the cpu-usage sensor term fails with the
deprecation evaluation error in every state and world, telemetry or
not; the CpuUsage arm of Expression::eval is an unconditional bail. -/
theorem c6_cpu_usage_always_errors (w : World) (s : EvalState) :
    Expression.cpuUsage.eval w s =
      .error "cpu-usage is deprecated and has been removed, use cpu-usage-since instead" :=
  rfl

/-! ## C10: threshold setters mutate only after a successful write -/

/-- C10: for both setters, when the path lookup or the sysfs write
fails, the returned record and sysfs tree are exactly the inputs
(atomicity on error), and on success the only record change is the
stored threshold value. -/
theorem c10_set_threshold_atomic (ps : PowerSupply) (fs : Fs) (f : ℚ) :
    ((ps.set_charge_threshold_start fs f).fst.isOk = false →
      (ps.set_charge_threshold_start fs f).snd = (ps, fs)) ∧
    ((ps.set_charge_threshold_start fs f).fst.isOk = true →
      (ps.set_charge_threshold_start fs f).snd.fst =
        { ps with charge_threshold_start := f }) ∧
    ((ps.set_charge_threshold_end fs f).fst.isOk = false →
      (ps.set_charge_threshold_end fs f).snd = (ps, fs)) ∧
    ((ps.set_charge_threshold_end fs f).fst.isOk = true →
      (ps.set_charge_threshold_end fs f).snd.fst =
        { ps with charge_threshold_end := f }) := by
  refine ⟨?_, ?_, ?_, ?_⟩
  · rcases hpath : ps.charge_threshold_path_start with _ | path
    · simp [PowerSupply.set_charge_threshold_start, hpath, Except.isOk,
        Except.toBool]
    · rcases hw : fs.write path (Nat.repr (f64AsU8 (f * 100))) with e | fs2
      all_goals simp [PowerSupply.set_charge_threshold_start, hpath, hw,
        Except.isOk, Except.toBool]
  · rcases hpath : ps.charge_threshold_path_start with _ | path
    · simp [PowerSupply.set_charge_threshold_start, hpath, Except.isOk,
        Except.toBool]
    · rcases hw : fs.write path (Nat.repr (f64AsU8 (f * 100))) with e | fs2
      all_goals simp [PowerSupply.set_charge_threshold_start, hpath, hw,
        Except.isOk, Except.toBool]
  · rcases hpath : ps.charge_threshold_path_end with _ | path
    · simp [PowerSupply.set_charge_threshold_end, hpath, Except.isOk,
        Except.toBool]
    · rcases hw : fs.write path (Nat.repr (f64AsU8 (f * 100))) with e | fs2
      all_goals simp [PowerSupply.set_charge_threshold_end, hpath, hw,
        Except.isOk, Except.toBool]
  · rcases hpath : ps.charge_threshold_path_end with _ | path
    · simp [PowerSupply.set_charge_threshold_end, hpath, Except.isOk,
        Except.toBool]
    · rcases hw : fs.write path (Nat.repr (f64AsU8 (f * 100))) with e | fs2
      all_goals simp [PowerSupply.set_charge_threshold_end, hpath, hw,
        Except.isOk, Except.toBool]

/-- C10 witness: storing on a power supply with no detected threshold
profile fails at the path lookup and leaves the record and sysfs tree
untouched. -/
theorem c10_set_threshold_atomic_witness :
    ((PowerSupply.fresh "NOCFG").set_charge_threshold_start emptyFs
        (1 / 2)).snd = (PowerSupply.fresh "NOCFG", emptyFs) :=
  (c10_set_threshold_atomic (PowerSupply.fresh "NOCFG") emptyFs
    (1 / 2)).1 rfl

/-! ## C1: the rule fold at a failing input -/

/-- C1: two CPUs, two always-true rules (priority 20 sets governor
powersave, priority 10 sets governor schedutil, both for all CPUs).
The claim says the higher-priority value powersave is retained for
every CPU. The fold merges the priority-20 delta into the first CPU,
sees that this delta is not saturated, and - because the merge runs
inside Iterator::all, which stops at the first false - never merges
anything into the second CPU, for this rule or the next: the second
CPU ends with no governor at all, although both rules matched and both
set it. -/
theorem c1_fold_at_failing_input :
    (run_daemon_fold world0 state01 configTwoRules).map
      (fun acc => (foldGovernorOf acc cpu0, foldGovernorOf acc cpu1))
      = .ok (some "powersave", none) := by
  rfl

/-! ## C9: idle_multiplier boundary values and formula -/

/-- C9 counterexample. The claim states the result equals 1 + t/120 for
every idle duration t below 120 s, but idle times are truncated to
whole seconds by as_secs first: at t = 60.5 s the code yields
1 + 60/120 = 1.5, while the claimed formula gives 1 + 60.5/120. -/
theorem c9_idle_multiplier_fractional_counterexample :
    idle_multiplier 60500 = 3 / 2 ∧
      (3 / 2 : ℝ) ≠ 1 + (60.5 : ℝ) / 120 := by
  constructor
  · show min (max _ _) _ = _
    norm_num [idle_multiplier]
  · norm_num

/-- C9 amended: idle_multiplier 0 = 1, idle_multiplier at 120 s is 2,
every duration of at least 2^16 minutes yields the saturated 5.0, the
result always lies in the clamp range, and the formulas hold with the
idle time truncated to whole seconds (Duration::as_secs) before the
1 + t/120 and 1 + log2(minutes) formulas are applied. Durations are in
milliseconds. -/
theorem c9_idle_multiplier_values :
    idle_multiplier 0 = 1 ∧
    idle_multiplier 120000 = 2 ∧
    (∀ t : ℕ, 2 ^ 16 * 60 * 1000 ≤ t → idle_multiplier t = 5) ∧
    (∀ t : ℕ, 1 ≤ idle_multiplier t ∧ idle_multiplier t ≤ 5) ∧
    (∀ t : ℕ, t / 1000 < 120 →
      idle_multiplier t = 1 + ((t / 1000 : ℕ) : ℝ) / 120) ∧
    (∀ t : ℕ, 120 ≤ t / 1000 →
      idle_multiplier t =
        min (max (1 + Real.logb 2 (((t / 1000 : ℕ) : ℝ) / 60)) 1) 5) := by
  have hb : (1 : ℝ) < 2 := one_lt_two
  refine ⟨?_, ?_, ?_, ?_, ?_, ?_⟩
  · show min (max _ _) _ = _
    norm_num [idle_multiplier]
  · show min (max _ _) _ = _
    have h2 : Real.logb 2 ((120 : ℝ) / 60) = 1 := by
      norm_num
    norm_num [idle_multiplier, h2]
  · intro t ht
    have hsecs : 2 ^ 16 * 60 ≤ t / 1000 := by omega
    have hnotlt : ¬ t / 1000 < 120 := by omega
    have hlogb : (16 : ℝ) ≤ Real.logb 2 (((t / 1000 : ℕ) : ℝ) / 60) := by
      have h65536 : (65536 : ℝ) ≤ ((t / 1000 : ℕ) : ℝ) / 60 := by
        rw [le_div_iff₀ (by norm_num)]
        have : (2 ^ 16 * 60 : ℕ) ≤ t / 1000 := hsecs
        calc (65536 : ℝ) * 60 = ((2 ^ 16 * 60 : ℕ) : ℝ) := by norm_num
          _ ≤ ((t / 1000 : ℕ) : ℝ) := by exact_mod_cast Nat.cast_le.mpr this
      calc (16 : ℝ) = Real.logb 2 (2 ^ (16 : ℕ)) := by
            rw [Real.logb_pow, Real.logb_self_eq_one hb]
            norm_num
        _ ≤ Real.logb 2 (((t / 1000 : ℕ) : ℝ) / 60) := by
            rw [Real.logb_le_logb hb (by norm_num)
              (lt_of_lt_of_le (by norm_num) h65536)]
            calc ((2 : ℝ) ^ (16 : ℕ)) = 65536 := by norm_num
              _ ≤ _ := h65536
    rw [idle_multiplier]
    simp only [hnotlt, if_false]
    have hfac : (5 : ℝ) ≤ 1 + Real.logb 2 (((t / 1000 : ℕ) : ℝ) / 60) := by
      linarith
    rw [max_eq_left (by linarith), min_eq_right hfac]
  · intro t
    constructor
    · exact le_min (le_max_right _ _) (by norm_num)
    · exact min_le_right _ _
  · intro t ht
    rw [idle_multiplier]
    simp only [ht, if_true]
    have h0 : (0 : ℝ) ≤ ((t / 1000 : ℕ) : ℝ) / 120 :=
      div_nonneg (Nat.cast_nonneg _) (by norm_num)
    have h1 : ((t / 1000 : ℕ) : ℝ) / 120 < 1 := by
      rw [div_lt_one (by norm_num)]
      exact_mod_cast ht
    rw [max_eq_left (by linarith), min_eq_left (by linarith)]
  · intro t ht
    have hnotlt : ¬ t / 1000 < 120 := by omega
    rw [idle_multiplier]
    simp only [hnotlt, if_false]

/-- C9 witness: at exactly 2^16 minutes of idle time the multiplier is
the saturated 5. -/
theorem c9_idle_multiplier_values_witness :
    idle_multiplier 3932160000 = 5 :=
  c9_idle_multiplier_values.2.2.1 3932160000 (by decide)

/-! ## C2: strictness of the evaluator -/

/-- C2 counterexample. The right operand of the and operator evaluates
to Undefined (an if with a false condition and no else), yet the whole
expression evaluates to Boolean false, not Undefined: the Rust && in
the And arm short-circuits, so and / or are not strict in their right
operand. -/
theorem c2_and_shortcircuit_counterexample :
    (Expression.ifElse (.boolean false) (.boolean true) none).eval
        world0 state0 = .ok none ∧
      (Expression.and (.boolean false)
          (.ifElse (.boolean false) (.boolean true) none)).eval
        world0 state0 = .ok (some (.boolean false)) :=
  ⟨rfl, rfl⟩

/-- An Undefined element makes the List-arm element loop yield Undefined
or an error, never a value list. -/
theorem evalItems_no_value (w : World) (s : EvalState) :
    ∀ (xs : List Expression) (x : Expression), x ∈ xs →
      x.eval w s = .ok none →
      ∀ l, Expression.evalItems xs w s ≠ .ok (some l)
  | [], x, hmem, _, _ => by cases hmem
  | y :: rest, x, hmem, hx, l => by
    intro hv
    rcases List.mem_cons.mp hmem with rfl | hmem
    · simp [Expression.evalItems, hx] at hv
    · rcases hy : y.eval w s with e | (_ | vy)
      · simp [Expression.evalItems, hy] at hv
      · simp [Expression.evalItems, hy] at hv
      · rcases hrest : Expression.evalItems rest w s with e | (_ | ls)
        · simp [Expression.evalItems, hy, hrest] at hv
        · simp [Expression.evalItems, hy, hrest] at hv
        · exact evalItems_no_value w s rest x hmem hx ls hrest

/-- An Undefined element makes the Minimum / Maximum element loop yield
Undefined or an error, never a number list. -/
theorem evalNumbers_no_value (w : World) (s : EvalState) :
    ∀ (xs : List Expression) (x : Expression), x ∈ xs →
      x.eval w s = .ok none →
      ∀ l, Expression.evalNumbers xs w s ≠ .ok (some l)
  | [], x, hmem, _, _ => by cases hmem
  | y :: rest, x, hmem, hx, l => by
    intro hv
    rcases List.mem_cons.mp hmem with rfl | hmem
    · simp [Expression.evalNumbers, hx] at hv
    · rcases hy : y.eval w s with e | (_ | vy)
      · simp [Expression.evalNumbers, hy] at hv
      · simp [Expression.evalNumbers, hy] at hv
      · rcases hny : vy.try_into_number with e | ny
        · simp [Expression.evalNumbers, hy, hny] at hv
        · rcases hrest : Expression.evalNumbers rest w s with e | (_ | ls)
          · simp [Expression.evalNumbers, hy, hny, hrest] at hv
          · simp [Expression.evalNumbers, hy, hny, hrest] at hv
          · exact evalNumbers_no_value w s rest x hmem hx ls hrest

/-- C2 amended. The strictness rule holds in this form: for every
operator other than is-unset, if, all, any, and, or, an operand that
evaluates to Undefined means the whole expression never evaluates to a
value (it is Undefined, or an error when another operand is ill-typed
or fails). The operators and / or are additionally non-strict in their
right operand: when the left operand decides the result (false for and,
true for or) that boolean is returned without the right operand being
evaluated; otherwise the Undefined propagates. And is-unset yields
Boolean true exactly when its operand evaluates to Undefined. -/
theorem c2_strictness_amended :
    (∀ (w : World) (s : EvalState) (a b : Expression),
      a.eval w s = .ok none ∨ b.eval w s = .ok none →
      ∀ v, (Expression.plus a b).eval w s ≠ .ok (some v)) ∧
    (∀ (w : World) (s : EvalState) (a b : Expression),
      a.eval w s = .ok none ∨ b.eval w s = .ok none →
      ∀ v, (Expression.minus a b).eval w s ≠ .ok (some v)) ∧
    (∀ (w : World) (s : EvalState) (a b : Expression),
      a.eval w s = .ok none ∨ b.eval w s = .ok none →
      ∀ v, (Expression.multiply a b).eval w s ≠ .ok (some v)) ∧
    (∀ (w : World) (s : EvalState) (a b : Expression),
      a.eval w s = .ok none ∨ b.eval w s = .ok none →
      ∀ v, (Expression.power a b).eval w s ≠ .ok (some v)) ∧
    (∀ (w : World) (s : EvalState) (a b : Expression),
      a.eval w s = .ok none ∨ b.eval w s = .ok none →
      ∀ v, (Expression.divide a b).eval w s ≠ .ok (some v)) ∧
    (∀ (w : World) (s : EvalState) (a b : Expression),
      a.eval w s = .ok none ∨ b.eval w s = .ok none →
      ∀ v, (Expression.lessThan a b).eval w s ≠ .ok (some v)) ∧
    (∀ (w : World) (s : EvalState) (a b : Expression),
      a.eval w s = .ok none ∨ b.eval w s = .ok none →
      ∀ v, (Expression.moreThan a b).eval w s ≠ .ok (some v)) ∧
    (∀ (w : World) (s : EvalState) (a b l : Expression),
      a.eval w s = .ok none ∨ b.eval w s = .ok none ∨
        l.eval w s = .ok none →
      ∀ v, (Expression.equal a b l).eval w s ≠ .ok (some v)) ∧
    (∀ (w : World) (s : EvalState) (a : Expression),
      a.eval w s = .ok none →
      (Expression.isGovernorAvailable a).eval w s = .ok none ∧
      (Expression.isEnergyPerformancePreferenceAvailable a).eval w s
        = .ok none ∧
      (Expression.isEnergyPerfBiasAvailable a).eval w s = .ok none ∧
      (Expression.isPlatformProfileAvailable a).eval w s = .ok none ∧
      (Expression.isDriverLoaded a).eval w s = .ok none ∧
      (Expression.not a).eval w s = .ok none) ∧
    (∀ (w : World) (s : EvalState) (xs : List Expression)
        (x : Expression), x ∈ xs → x.eval w s = .ok none →
      (∀ v, (Expression.list xs).eval w s ≠ .ok (some v)) ∧
      (∀ v, (Expression.minimum xs).eval w s ≠ .ok (some v)) ∧
      (∀ v, (Expression.maximum xs).eval w s ≠ .ok (some v))) ∧
    (∀ (w : World) (s : EvalState) (a b : Expression),
      (a.eval w s = .ok none →
        (Expression.and a b).eval w s = .ok none) ∧
      (a.eval w s = .ok (some (.boolean false)) →
        (Expression.and a b).eval w s = .ok (some (.boolean false))) ∧
      (a.eval w s = .ok (some (.boolean true)) →
        b.eval w s = .ok none →
        (Expression.and a b).eval w s = .ok none) ∧
      (a.eval w s = .ok none →
        (Expression.or a b).eval w s = .ok none) ∧
      (a.eval w s = .ok (some (.boolean true)) →
        (Expression.or a b).eval w s = .ok (some (.boolean true))) ∧
      (a.eval w s = .ok (some (.boolean false)) →
        b.eval w s = .ok none →
        (Expression.or a b).eval w s = .ok none)) ∧
    (∀ (w : World) (s : EvalState) (a : Expression),
      (Expression.isUnset a).eval w s = .ok (some (.boolean true)) ↔
        a.eval w s = .ok none) := by
  refine ⟨?_, ?_, ?_, ?_, ?_, ?_, ?_, ?_, ?_, ?_, ?_, ?_⟩
  case _ =>
    intro w s a b h v hv
    rcases h with h | h
    · simp [Expression.eval, h] at hv
    · rcases ha : a.eval w s with e | (_ | va)
      · simp [Expression.eval, ha] at hv
      · simp [Expression.eval, ha] at hv
      · rcases hna : va.try_into_number with e | na
        · simp [Expression.eval, ha, hna] at hv
        · simp [Expression.eval, ha, hna, h] at hv
  case _ =>
    intro w s a b h v hv
    rcases h with h | h
    · simp [Expression.eval, h] at hv
    · rcases ha : a.eval w s with e | (_ | va)
      · simp [Expression.eval, ha] at hv
      · simp [Expression.eval, ha] at hv
      · rcases hna : va.try_into_number with e | na
        · simp [Expression.eval, ha, hna] at hv
        · simp [Expression.eval, ha, hna, h] at hv
  case _ =>
    intro w s a b h v hv
    rcases h with h | h
    · simp [Expression.eval, h] at hv
    · rcases ha : a.eval w s with e | (_ | va)
      · simp [Expression.eval, ha] at hv
      · simp [Expression.eval, ha] at hv
      · rcases hna : va.try_into_number with e | na
        · simp [Expression.eval, ha, hna] at hv
        · simp [Expression.eval, ha, hna, h] at hv
  case _ =>
    intro w s a b h v hv
    rcases h with h | h
    · simp [Expression.eval, h] at hv
    · rcases ha : a.eval w s with e | (_ | va)
      · simp [Expression.eval, ha] at hv
      · simp [Expression.eval, ha] at hv
      · rcases hna : va.try_into_number with e | na
        · simp [Expression.eval, ha, hna] at hv
        · simp [Expression.eval, ha, hna, h] at hv
  case _ =>
    intro w s a b h v hv
    rcases h with h | h
    · simp [Expression.eval, h] at hv
    · rcases ha : a.eval w s with e | (_ | va)
      · simp [Expression.eval, ha] at hv
      · simp [Expression.eval, ha] at hv
      · rcases hna : va.try_into_number with e | na
        · simp [Expression.eval, ha, hna] at hv
        · simp [Expression.eval, ha, hna, h] at hv
  case _ =>
    intro w s a b h v hv
    rcases h with h | h
    · simp [Expression.eval, h] at hv
    · rcases ha : a.eval w s with e | (_ | va)
      · simp [Expression.eval, ha] at hv
      · simp [Expression.eval, ha] at hv
      · rcases hna : va.try_into_number with e | na
        · simp [Expression.eval, ha, hna] at hv
        · simp [Expression.eval, ha, hna, h] at hv
  case _ =>
    intro w s a b h v hv
    rcases h with h | h
    · simp [Expression.eval, h] at hv
    · rcases ha : a.eval w s with e | (_ | va)
      · simp [Expression.eval, ha] at hv
      · simp [Expression.eval, ha] at hv
      · rcases hna : va.try_into_number with e | na
        · simp [Expression.eval, ha, hna] at hv
        · simp [Expression.eval, ha, hna, h] at hv
  case _ =>
    intro w s a b l h v hv
    rcases h with h | h | h
    · simp [Expression.eval, h] at hv
    · rcases ha : a.eval w s with e | (_ | va)
      · simp [Expression.eval, ha] at hv
      · simp [Expression.eval, ha] at hv
      · rcases hna : va.try_into_number with e | na
        · simp [Expression.eval, ha, hna] at hv
        · simp [Expression.eval, ha, hna, h] at hv
    · rcases ha : a.eval w s with e | (_ | va)
      · simp [Expression.eval, ha] at hv
      · simp [Expression.eval, ha] at hv
      · rcases hna : va.try_into_number with e | na
        · simp [Expression.eval, ha, hna] at hv
        · rcases hb : b.eval w s with e | (_ | vb)
          · simp [Expression.eval, ha, hna, hb] at hv
          · simp [Expression.eval, ha, hna, hb] at hv
          · rcases hnb : vb.try_into_number with e | nb
            · simp [Expression.eval, ha, hna, hb, hnb] at hv
            · simp [Expression.eval, ha, hna, hb, hnb, h] at hv
  case _ =>
    intro w s a h
    refine ⟨?_, ?_, ?_, ?_, ?_, ?_⟩ <;> simp [Expression.eval, h]
  case _ =>
    intro w s xs x hmem hx
    refine ⟨?_, ?_, ?_⟩
    · intro v hv
      rcases hres : Expression.evalItems xs w s with e | (_ | ls)
      · simp [Expression.eval, hres] at hv
      · simp [Expression.eval, hres] at hv
      · exact evalItems_no_value w s xs x hmem hx ls hres
    · intro v hv
      rcases hres : Expression.evalNumbers xs w s with e | (_ | ls)
      · simp [Expression.eval, hres] at hv
      · simp [Expression.eval, hres] at hv
      · exact evalNumbers_no_value w s xs x hmem hx ls hres
    · intro v hv
      rcases hres : Expression.evalNumbers xs w s with e | (_ | ls)
      · simp [Expression.eval, hres] at hv
      · simp [Expression.eval, hres] at hv
      · exact evalNumbers_no_value w s xs x hmem hx ls hres
  case _ =>
    intro w s a b
    refine ⟨?_, ?_, ?_, ?_, ?_, ?_⟩
    · intro h; simp [Expression.eval, h]
    · intro h
      simp [Expression.eval, h, Expression.try_into_boolean]
    · intro h1 h2
      simp [Expression.eval, h1, Expression.try_into_boolean, h2]
    · intro h; simp [Expression.eval, h]
    · intro h
      simp [Expression.eval, h, Expression.try_into_boolean]
    · intro h1 h2
      simp [Expression.eval, h1, Expression.try_into_boolean, h2]
  case _ =>
    intro w s a
    constructor
    · intro h
      rcases ha : a.eval w s with e | (_ | va)
      · simp [Expression.eval, ha] at h
      · rfl
      · simp [Expression.eval, ha] at h
    · intro h
      simp [Expression.eval, h]

/-- C2 witness: applying the amended strictness at a concrete input, a
plus whose left operand is a concrete Undefined expression never yields
a value. -/
theorem c2_strictness_amended_witness :
    (Expression.plus (.ifElse (.boolean false) (.boolean true) none)
        (.number 1)).eval world0 state0 ≠ .ok (some (.number 2)) :=
  c2_strictness_amended.1 world0 state0
    (.ifElse (.boolean false) (.boolean true) none) (.number 1)
    (Or.inl rfl) (.number 2)

/-! ## C7: config loading sorts rules and rejects duplicate priorities -/

/-- The duplicate check succeeds when the rules have pairwise distinct
priorities, none of which was seen before. -/
theorem checkPriorities_ok :
    ∀ (rules : List Rule) (seen : List ℕ),
      (∀ r ∈ rules, r.priority ∉ seen) →
      rules.Pairwise (fun a b => a.priority ≠ b.priority) →
      checkPriorities rules seen = .ok ()
  | [], _, _, _ => rfl
  | r :: rest, seen, hseen, hpair => by
    have hr : seen.contains r.priority = false := by
      simpa using hseen r (List.mem_cons_self r rest)
    rw [checkPriorities, hr]
    simp only [Bool.false_eq_true, if_false]
    apply checkPriorities_ok rest (seen ++ [r.priority])
    · intro r' hr' hmem
      rcases List.mem_append.mp hmem with hmem | hmem
      · exact hseen r' (List.mem_cons_of_mem r hr') hmem
      · have : r'.priority = r.priority := by simpa using hmem
        exact (List.pairwise_cons.mp hpair).1 r' hr' this.symm
    · exact (List.pairwise_cons.mp hpair).2

/-- The duplicate check fails when some priority repeats (or was already
seen). -/
theorem checkPriorities_error :
    ∀ (rules : List Rule) (seen : List ℕ),
      (∃ r ∈ rules, r.priority ∈ seen) ∨
        ¬ rules.Pairwise (fun a b => a.priority ≠ b.priority) →
      ∃ e, checkPriorities rules seen = .error e
  | [], seen, h => by
    rcases h with ⟨r, hr, _⟩ | h
    · cases hr
    · exact absurd List.Pairwise.nil h
  | r :: rest, seen, h => by
    by_cases hr : seen.contains r.priority
    · refine ⟨"each config rule must have a different priority", ?_⟩
      rw [checkPriorities, hr]
      rfl
    · have hrmem : r.priority ∉ seen := by simpa using hr
      have hstep : ∃ e,
          checkPriorities rest (seen ++ [r.priority]) = .error e := by
        apply checkPriorities_error rest (seen ++ [r.priority])
        rcases h with ⟨r', hr', hmem⟩ | h
        · rcases List.mem_cons.mp hr' with rfl | hr'
          · exact absurd hmem hrmem
          · exact Or.inl ⟨r', hr', List.mem_append_left _ hmem⟩
        · rw [List.pairwise_cons] at h
          push_neg at h
          by_cases hhead : ∀ r' ∈ rest, r.priority ≠ r'.priority
          · exact Or.inr (h hhead)
          · push_neg at hhead
            obtain ⟨r', hr', heq⟩ := hhead
            exact Or.inl ⟨r', hr',
              List.mem_append_right _ (by simp [heq])⟩
      obtain ⟨e, he⟩ := hstep
      refine ⟨e, ?_⟩
      rw [checkPriorities]
      simp only [hr, Bool.false_eq_true, if_false]
      exact he

/-- C7: a parsed config whose rules have pairwise distinct priorities
loads successfully, and the returned rule list is a permutation of the
input sorted ascending by priority; a config with a repeated priority
fails to load. -/
theorem c7_load_sorts_and_rejects_duplicates :
    (∀ config : DaemonConfig,
      config.rules.Pairwise (fun a b => a.priority ≠ b.priority) →
      ∃ sorted, config.load_from_parsed = .ok sorted ∧
        sorted.rules.Sorted (fun a b => a.priority ≤ b.priority) ∧
        sorted.rules.Perm config.rules) ∧
    (∀ config : DaemonConfig,
      ¬ config.rules.Pairwise (fun a b => a.priority ≠ b.priority) →
      ∃ e, config.load_from_parsed = .error e) := by
  constructor
  · intro config hpair
    have hok : checkPriorities config.rules [] = .ok () :=
      checkPriorities_ok config.rules [] (by simp) hpair
    refine ⟨⟨config.rules.mergeSort
      (fun a b => decide (a.priority ≤ b.priority))⟩, ?_, ?_, ?_⟩
    · rw [DaemonConfig.load_from_parsed]
      rw [bind_pure_comp]
      rw [hok]
      rfl
    · have hsorted := @List.sorted_mergeSort Rule
        (fun a b : Rule => decide (a.priority ≤ b.priority))
        (fun a b c hab hbc => by
          simp only [decide_eq_true_eq] at hab hbc ⊢
          omega)
        (fun a b => by
          simp only [Bool.or_eq_true, decide_eq_true_eq]
          omega)
        config.rules
      exact hsorted.imp (fun h => by simpa using h)
    · exact List.mergeSort_perm config.rules _
  · intro config hpair
    obtain ⟨e, he⟩ :=
      checkPriorities_error config.rules [] (Or.inr hpair)
    refine ⟨e, ?_⟩
    rw [DaemonConfig.load_from_parsed, bind_pure_comp, he]
    rfl

/-- C7 witness: loading the two-rule config given out of order succeeds
and sorts it, and loading a config repeating priority 10 fails. -/
theorem c7_load_sorts_and_rejects_duplicates_witness :
    (∃ sorted,
      DaemonConfig.load_from_parsed ⟨[rulePrio20, rulePrio10]⟩
          = .ok sorted ∧
        sorted.rules.Sorted (fun a b => a.priority ≤ b.priority) ∧
        sorted.rules.Perm [rulePrio20, rulePrio10]) ∧
    (∃ e, DaemonConfig.load_from_parsed ⟨[rulePrio10, rulePrio10]⟩
        = .error e) :=
  ⟨c7_load_sorts_and_rejects_duplicates.1 ⟨[rulePrio20, rulePrio10]⟩
      (by simp [rulePrio20, rulePrio10]),
    c7_load_sorts_and_rejects_duplicates.2 ⟨[rulePrio10, rulePrio10]⟩
      (by simp [rulePrio10])⟩

/-! ## C8: which power supplies carry a threshold profile -/

/-- C8 counterexample. A Battery-typed wireless-mouse power supply
(peripheral by the name heuristic) that exposes the Standard threshold
files receives a detected threshold profile from rescan, although the
claim says only non-peripheral Battery entries may have one. -/
theorem c8_peripheral_battery_gets_threshold_counterexample :
    ((PowerSupply.fresh "hid_mouse_battery").rescan mouseFs).map
        (fun ps => (ps.type_, ps.is_from_peripheral, ps.threshold_config))
      = .ok ("Battery", true, some standardThresholdConfig) := by
  rfl

/-- The battery block leaves the device type unchanged. -/
theorem rescanBattery_type_eq (ps : PowerSupply) (fs : Fs)
    (ps' : PowerSupply) (h : ps.rescanBattery fs = .ok ps') :
    ps'.type_ = ps.type_ := by
  rw [PowerSupply.rescanBattery] at h
  rcases hcap : fs.readNat (pathJoin ps.path "capacity") with e | cap
  · simp [hcap, Bind.bind, Except.bind] at h
  rcases hst : fs.readNat (pathJoin ps.path "charge_control_start_threshold")
    with e | st
  · simp [hcap, hst, Bind.bind, Except.bind] at h
  rcases hend : fs.readNat (pathJoin ps.path "charge_control_end_threshold")
    with e | en
  · simp [hcap, hst, hend, Bind.bind, Except.bind] at h
  rcases hpow : fs.readInt (pathJoin ps.path "power_now") with e | (_ | pw)
  · simp [hcap, hst, hend, hpow, Bind.bind, Except.bind] at h
  · rcases hcur : fs.readInt (pathJoin ps.path "current_now") with e | cur
    · simp [hcap, hst, hend, hpow, hcur, Bind.bind, Except.bind] at h
    · rcases hvol : fs.readInt (pathJoin ps.path "voltage_now") with e | vol
      · simp [hcap, hst, hend, hpow, hcur, hvol, Bind.bind,
          Except.bind] at h
      · simp [hcap, hst, hend, hpow, hcur, hvol, Bind.bind, Except.bind,
          pure, Except.pure] at h
        rw [← h]
  · simp [hcap, hst, hend, hpow, Bind.bind, Except.bind, pure,
      Except.pure] at h
    rw [← h]

/-- C8 amended: starting from a freshly constructed record (no profile),
after a successful rescan a threshold profile can be present only on a
Battery-typed entry - peripheral Battery devices are not excluded - and
a non-Battery entry (in particular an AC-typed one, which contributes
only to the is_ac signal) never carries one. -/
theorem c8_threshold_profile_only_on_battery (ps0 : PowerSupply) (fs : Fs)
    (ps : PowerSupply) (h0 : ps0.threshold_config = none)
    (hscan : ps0.rescan fs = .ok ps) :
    (ps.threshold_config.isSome → ps.type_ = "Battery") ∧
    (ps.type_ ≠ "Battery" → ps.threshold_config = none) := by
  rw [PowerSupply.rescan] at hscan
  rcases hex : fs.existsPath ps0.path with _ | _
  · simp [hex, Bind.bind, Except.bind, throw, throwThe,
      MonadExceptOf.throw, pure, Except.pure] at hscan
  rcases hty : fs.read (pathJoin ps0.path "type") with _ | t
  · simp [hex, hty, Bind.bind, Except.bind, throw, throwThe,
      MonadExceptOf.throw, pure, Except.pure] at hscan
  rcases hper : PowerSupply.isFromPeripheralOf
      { ps0 with type_ := t } fs with e | flag
  · simp [hex, hty, hper, Bind.bind, Except.bind, pure, Except.pure] at hscan
  rcases hbat : (t == "Battery") with _ | _
  · simp [hex, hty, hper, hbat, Bind.bind, Except.bind, pure,
      Except.pure] at hscan
    constructor
    · intro hsome
      rw [← hscan] at hsome
      simp [h0] at hsome
    · intro _
      rw [← hscan]
      exact h0
  · have hteq : t = "Battery" := by simpa using hbat
    simp [hex, hty, hper, hbat, Bind.bind, Except.bind, pure, Except.pure] at hscan
    have htype := rescanBattery_type_eq _ _ _ hscan
    simp at htype
    constructor
    · intro _
      rw [htype, hteq]
    · intro hne
      exact absurd (htype.trans hteq) hne

/-- C8 witness: the Battery-typed wireless mouse with threshold files
satisfies the amended invariant - its profile is present and its type
is Battery. -/
theorem c8_threshold_profile_only_on_battery_witness :
    ({ PowerSupply.fresh "hid_mouse_battery" with
        type_ := "Battery"
        is_from_peripheral := true
        charge_threshold_start := ((40 : ℕ) : ℚ) / 100
        charge_threshold_end := ((80 : ℕ) : ℚ) / 100
        threshold_config := some standardThresholdConfig } :
      PowerSupply).type_ = "Battery" :=
  (c8_threshold_profile_only_on_battery
      (PowerSupply.fresh "hid_mouse_battery") mouseFs _ rfl rfl).1 rfl

/-! ## C5: charge-threshold store / read-back round trip -/

/-- Written percentages survive the sysfs round trip: rendering a value
up to 255 with Nat::to_string and re-parsing it after the two trims of
the read path yields the value back. -/
theorem reprParse_roundtrip :
    ∀ m : ℕ, m ≤ 255 →
      strParseNat (strTrim (strTrim (Nat.repr m))) = some m := by
  have h : ∀ i : Fin 256,
      strParseNat (strTrim (strTrim (Nat.repr i.val))) = some i.val := by
    decide
  intro m hm
  exact h ⟨m, by omega⟩

/-- Evaluating the full store-then-rescan pipeline for the start
threshold: the sysfs file receives the u8-truncated percentage and the
read-back divides it by 100. -/
theorem thresholdRoundTripStart_eval (f : ℚ) :
    thresholdRoundTripStart f =
      .ok ((f64AsU8 (f * 100) : ℚ) / 100) := by
  have hn255 : f64AsU8 (f * 100) ≤ 255 := min_le_left _ _
  set n := f64AsU8 (f * 100) with hn
  set fs2 : Fs :=
    { bat0Fs with files :=
        ("/sys/class/power_supply/BAT0/charge_control_start_threshold",
          Nat.repr n) :: bat0Fs.files } with hfs2
  set r : PowerSupply := { bat0 with charge_threshold_start := f, type_ := "Battery", is_from_peripheral := false } with hr
  have hstep : thresholdRoundTripStart f =
      (r.rescanBattery fs2).map (fun ps => ps.charge_threshold_start) :=
    rfl
  rw [hstep]
  have hcap : Fs.readNat fs2 (pathJoin r.path "capacity") = .ok none := rfl
  have hst : Fs.readNat fs2
      (pathJoin r.path "charge_control_start_threshold")
      = .ok (some n) := by
    rw [Fs.readNat]
    have hread : fs2.read
        (pathJoin r.path "charge_control_start_threshold")
        = some (strTrim (Nat.repr n)) := rfl
    rw [hread]
    simp only [reprParse_roundtrip n hn255]
  have hend : Fs.readNat fs2
      (pathJoin r.path "charge_control_end_threshold")
      = .ok (some 80) := rfl
  have hpow : Fs.readInt fs2 (pathJoin r.path "power_now") = .ok none := rfl
  have hcur : Fs.readInt fs2 (pathJoin r.path "current_now")
      = .ok none := rfl
  have hvol : Fs.readInt fs2 (pathJoin r.path "voltage_now")
      = .ok none := rfl
  have hfind : powerSupplyThresholdConfigs.find?
      (fun config =>
        fs2.existsPath (pathJoin r.path config.path_start)
          && fs2.existsPath (pathJoin r.path config.path_end))
      = some standardThresholdConfig := rfl
  simp only [PowerSupply.rescanBattery, hcap, hst, hend, hpow, hcur, hvol,
    hfind, Bind.bind, Except.bind, pure, Except.pure, Except.map]

/-- Evaluating the full store-then-rescan pipeline for the end
threshold. -/
theorem thresholdRoundTripEnd_eval (f : ℚ) :
    thresholdRoundTripEnd f =
      .ok ((f64AsU8 (f * 100) : ℚ) / 100) := by
  have hn255 : f64AsU8 (f * 100) ≤ 255 := min_le_left _ _
  set n := f64AsU8 (f * 100) with hn
  set fs2 : Fs :=
    { bat0Fs with files :=
        ("/sys/class/power_supply/BAT0/charge_control_end_threshold",
          Nat.repr n) :: bat0Fs.files } with hfs2
  set r : PowerSupply := { bat0 with charge_threshold_end := f, type_ := "Battery", is_from_peripheral := false } with hr
  have hstep : thresholdRoundTripEnd f =
      (r.rescanBattery fs2).map (fun ps => ps.charge_threshold_end) :=
    rfl
  rw [hstep]
  have hcap : Fs.readNat fs2 (pathJoin r.path "capacity") = .ok none := rfl
  have hst : Fs.readNat fs2
      (pathJoin r.path "charge_control_start_threshold")
      = .ok (some 40) := rfl
  have hend : Fs.readNat fs2
      (pathJoin r.path "charge_control_end_threshold")
      = .ok (some n) := by
    rw [Fs.readNat]
    have hread : fs2.read
        (pathJoin r.path "charge_control_end_threshold")
        = some (strTrim (Nat.repr n)) := rfl
    rw [hread]
    simp only [reprParse_roundtrip n hn255]
  have hpow : Fs.readInt fs2 (pathJoin r.path "power_now") = .ok none := rfl
  have hcur : Fs.readInt fs2 (pathJoin r.path "current_now")
      = .ok none := rfl
  have hvol : Fs.readInt fs2 (pathJoin r.path "voltage_now")
      = .ok none := rfl
  have hfind : powerSupplyThresholdConfigs.find?
      (fun config =>
        fs2.existsPath (pathJoin r.path config.path_start)
          && fs2.existsPath (pathJoin r.path config.path_end))
      = some standardThresholdConfig := rfl
  simp only [PowerSupply.rescanBattery, hcap, hst, hend, hpow, hcur, hvol,
    hfind, Bind.bind, Except.bind, pure, Except.pure, Except.map]

/-- C5 counterexample. Storing f = 0.999 writes the `as u8` TRUNCATED
percentage 99 (not the rounded 100), so the read-back is 0.99 while the
claimed round(f*100)/100 is 1. -/
theorem c5_truncation_counterexample :
    thresholdRoundTripStart (999 / 1000) = .ok (99 / 100) ∧
      (99 : ℚ) / 100 ≠ 1 := by
  constructor
  · rw [thresholdRoundTripStart_eval]
    norm_num [f64AsU8]
    rw [show Int.toNat 99 = 99 from rfl]
    norm_num
  · norm_num

/-- C5 amended: for f in the unit interval stored through either setter
on a Standard-profile battery, reading the threshold back through
rescan yields the truncated floor(f*100)/100 - truncation toward zero
by the `as u8` cast, not rounding. (For the non-Standard vendor
profiles the read-back does not see the written file at all: rescan
always reads the Standard charge_control paths.) -/
theorem c5_threshold_roundtrip_floor (f : ℚ) (h0 : 0 ≤ f) (h1 : f ≤ 1) :
    thresholdRoundTripStart f = .ok ((⌊f * 100⌋ : ℚ) / 100) ∧
      thresholdRoundTripEnd f = .ok ((⌊f * 100⌋ : ℚ) / 100) := by
  have hf0 : (0 : ℚ) ≤ f * 100 := mul_nonneg h0 (by norm_num)
  have hfl0 : 0 ≤ ⌊f * 100⌋ := Int.floor_nonneg.mpr hf0
  have hfl100 : ⌊f * 100⌋ ≤ 100 := by
    have hle : f * 100 ≤ 100 := by
      calc f * 100 ≤ 1 * 100 := mul_le_mul_of_nonneg_right h1 (by norm_num)
        _ = 100 := by norm_num
    calc ⌊f * 100⌋ ≤ ⌊(100 : ℚ)⌋ := Int.floor_le_floor hle
      _ = 100 := by norm_num
  have hcast : ((f64AsU8 (f * 100) : ℕ) : ℚ) = ((⌊f * 100⌋ : ℤ) : ℚ) := by
    rw [f64AsU8, min_eq_right (by omega : Int.toNat ⌊f * 100⌋ ≤ 255)]
    exact_mod_cast congrArg (fun z : ℤ => (z : ℚ))
      (Int.toNat_of_nonneg hfl0)
  rw [thresholdRoundTripStart_eval, thresholdRoundTripEnd_eval, hcast]
  exact ⟨rfl, rfl⟩

/-- C5 witness: storing the full threshold 1 reads back as
floor(100)/100. -/
theorem c5_threshold_roundtrip_floor_witness :
    thresholdRoundTripStart 1 = .ok ((⌊(1 : ℚ) * 100⌋ : ℚ) / 100) :=
  (c5_threshold_roundtrip_floor 1 zero_le_one (le_refl 1)).1
